import Mathlib

/-!
# JNI macro assembler: factory and generic frame algorithms

A shallow embedding of `compiler/utils/jni_macro_assembler.cc`:

* the two `Create` specialisations (dispatch on the instruction set, with the
  `ART_ENABLE_CODEGEN_*` switches as an explicit build configuration);
* the four generic algorithms `LoadGcRootWithoutReadBarrier`,
  `LoadStackReference`, `PushLocalReferenceFrame`, `PopLocalReferenceFrame`,
  which only call the backend primitives `Load` and `Store`;
* a byte-addressed machine on which the recorded primitives are interpreted.
-/

namespace art

/-! ## Data model -/

/-- PointerSize is the template parameter `kPointerSize` of the assembler. -/
inductive PointerSize where
  | k32
  | k64
  deriving DecidableEq, Repr

/-- Modelled from the spec: the `InstructionSet` enumeration is declared in a header that is
not part of these sources. The six enumerators named by the two `switch` statements are kept
by name, `kNone` is the null enumerator, and `kOther raw` stands for every other value the
enumeration can carry (legacy or unknown instruction sets). -/
inductive InstructionSet where
  | kNone
  | kArm
  | kArm64
  | kThumb2
  | kRiscv64
  | kX86
  | kX86_64
  | kOther (raw : Nat)
  deriving DecidableEq, Repr

/-- The preprocessor switches that decide which `case` labels exist in the two factories. -/
structure BuildConfig where
  ART_ENABLE_CODEGEN_arm : Bool
  ART_ENABLE_CODEGEN_arm64 : Bool
  ART_ENABLE_CODEGEN_riscv64 : Bool
  ART_ENABLE_CODEGEN_x86 : Bool
  ART_ENABLE_CODEGEN_x86_64 : Bool
  deriving DecidableEq, Repr

/-- The arena allocator handed to `Create`; only its identity matters here. -/
structure ArenaAllocator where
  id : Nat
  deriving DecidableEq, Repr

/-- The instruction set features handed to `Create` (by pointer: `none` is the null pointer). -/
structure InstructionSetFeatures where
  bits : Nat
  deriving DecidableEq, Repr

/-- A register handle, treated as a token by the generic layer. -/
structure ManagedRegister where
  id : Nat
  deriving DecidableEq, Repr

/-- A byte offset of a field inside an object reached through a base register. -/
structure MemberOffset where
  val : Nat
  deriving DecidableEq, Repr

/-- A byte offset of a slot in the current stack frame. -/
structure FrameOffset where
  val : Nat
  deriving DecidableEq, Repr

/-- The concrete assembler class constructed by a factory. -/
inductive Backend where
  | ArmVIXLJNIMacroAssembler
  | X86JNIMacroAssembler
  | Arm64JNIMacroAssembler
  | Riscv64JNIMacroAssembler
  | X86_64JNIMacroAssembler
  deriving DecidableEq, Repr

/-- One call of a backend primitive, as recorded in the order of emission.
`Load` is `Load(dest, base, offs, size)`, `LoadFrame` is the overload
`Load(dest, FrameOffset, size)`, and `Store` is `Store(base, offs, src, size)`. -/
inductive Primitive where
  | Load (dest base : ManagedRegister) (offs : MemberOffset) (size : Nat)
  | LoadFrame (dest : ManagedRegister) (offs : FrameOffset) (size : Nat)
  | Store (base : ManagedRegister) (offs : MemberOffset) (src : ManagedRegister) (size : Nat)
  deriving DecidableEq, Repr

/-- One item streamed into `LOG(FATAL)`. -/
inductive LogItem where
  | text (s : String)
  | isa (instruction_set : InstructionSet)
  deriving DecidableEq, Repr

/-- The diagnostic of the fatal path: the items streamed into `LOG(FATAL)`, in order. -/
abbrev FatalLog := List LogItem

/-- The text of a diagnostic, given the printer of instruction sets. -/
def FatalLog.render (isaName : InstructionSet → String) : FatalLog → String
  | [] => ""
  | LogItem.text s :: rest => s ++ FatalLog.render isaName rest
  | LogItem.isa i :: rest => isaName i ++ FatalLog.render isaName rest

/-- The assembler object for one pointer size: the backend class it was constructed as, the
arena it lives in, and the backend primitives called on it so far. -/
structure JNIMacroAssembler (kPointerSize : PointerSize) where
  backend : Backend
  allocator : ArenaAllocator
  emitted : List Primitive
  deriving DecidableEq, Repr

/-- Modelled from the spec: the layout of the environment structure and of the segment-state
record (`JNIEnvExt::LocalRefCookieOffset`, `JNIEnvExt::SegmentStateOffset` and
`sizeof(jni::LRTSegmentState)`) is declared outside these sources; it is taken as a table of
constants indexed by pointer size. -/
structure JNIEnvExt where
  LocalRefCookieOffset : PointerSize → MemberOffset
  SegmentStateOffset : PointerSize → MemberOffset
  kLRTSegmentStateSize : Nat

/-! ## Factory -/

namespace JNIMacroAssembler

/-- The object produced by `new (allocator) B(allocator)`: nothing emitted yet. -/
def construct (kPointerSize : PointerSize) (backend : Backend) (allocator : ArenaAllocator) :
    JNIMacroAssembler kPointerSize :=
  { backend := backend, allocator := allocator, emitted := [] }

/-- The two specialisations of `Create`. A `case` label exists only when its backend is
compiled in; every other value reaches `default`, which logs fatally. -/
def Create (cfg : BuildConfig) (kPointerSize : PointerSize) (allocator : ArenaAllocator)
    (instruction_set : InstructionSet)
    (instruction_set_features : Option InstructionSetFeatures) :
    Except FatalLog (JNIMacroAssembler kPointerSize) :=
  let _ := instruction_set_features
  match kPointerSize with
  | PointerSize.k32 =>
    if cfg.ART_ENABLE_CODEGEN_arm ∧
        (instruction_set = InstructionSet.kArm ∨ instruction_set = InstructionSet.kThumb2) then
      Except.ok (construct PointerSize.k32 Backend.ArmVIXLJNIMacroAssembler allocator)
    else if cfg.ART_ENABLE_CODEGEN_x86 ∧ instruction_set = InstructionSet.kX86 then
      Except.ok (construct PointerSize.k32 Backend.X86JNIMacroAssembler allocator)
    else
      Except.error
        [LogItem.text "Unknown/unsupported 4B InstructionSet: ", LogItem.isa instruction_set]
  | PointerSize.k64 =>
    if cfg.ART_ENABLE_CODEGEN_arm64 ∧ instruction_set = InstructionSet.kArm64 then
      Except.ok (construct PointerSize.k64 Backend.Arm64JNIMacroAssembler allocator)
    else if cfg.ART_ENABLE_CODEGEN_riscv64 ∧ instruction_set = InstructionSet.kRiscv64 then
      Except.ok (construct PointerSize.k64 Backend.Riscv64JNIMacroAssembler allocator)
    else if cfg.ART_ENABLE_CODEGEN_x86_64 ∧ instruction_set = InstructionSet.kX86_64 then
      Except.ok (construct PointerSize.k64 Backend.X86_64JNIMacroAssembler allocator)
    else
      Except.error
        [LogItem.text "Unknown/unsupported 8B InstructionSet: ", LogItem.isa instruction_set]

/-! ## Backend primitives and generic algorithms -/

variable {kPointerSize : PointerSize}

/-- The primitive `Load(dest, base, offs, size)`: recorded as one emitted operation. -/
def Load (self : JNIMacroAssembler kPointerSize) (dest base : ManagedRegister)
    (offs : MemberOffset) (size : Nat) : JNIMacroAssembler kPointerSize :=
  { self with emitted := self.emitted ++ [Primitive.Load dest base offs size] }

/-- The primitive overload `Load(dest, FrameOffset, size)`. -/
def LoadFrame (self : JNIMacroAssembler kPointerSize) (dest : ManagedRegister)
    (offs : FrameOffset) (size : Nat) : JNIMacroAssembler kPointerSize :=
  { self with emitted := self.emitted ++ [Primitive.LoadFrame dest offs size] }

/-- The primitive `Store(base, offs, src, size)`. -/
def Store (self : JNIMacroAssembler kPointerSize) (base : ManagedRegister)
    (offs : MemberOffset) (src : ManagedRegister) (size : Nat) :
    JNIMacroAssembler kPointerSize :=
  { self with emitted := self.emitted ++ [Primitive.Store base offs src size] }

/-- The value of `sizeof(uint32_t)`. -/
def sizeof_uint32_t : Nat := 4

/-- LoadGcRootWithoutReadBarrier calls `Load(dest, base, offs, sizeof(uint32_t))`. -/
def LoadGcRootWithoutReadBarrier (self : JNIMacroAssembler kPointerSize)
    (dest base : ManagedRegister) (offs : MemberOffset) : JNIMacroAssembler kPointerSize :=
  self.Load dest base offs sizeof_uint32_t

/-- LoadStackReference calls the frame overload `Load(dest, offs, sizeof(uint32_t))`. -/
def LoadStackReference (self : JNIMacroAssembler kPointerSize) (dest : ManagedRegister)
    (offs : FrameOffset) : JNIMacroAssembler kPointerSize :=
  self.LoadFrame dest offs sizeof_uint32_t

/-- PushLocalReferenceFrame: load the old cookie, then set the cookie to the current segment
state. -/
def PushLocalReferenceFrame (env : JNIEnvExt) (self : JNIMacroAssembler kPointerSize)
    (jni_env_reg saved_cookie_reg temp_reg : ManagedRegister) :
    JNIMacroAssembler kPointerSize :=
  let kLRTSegmentStateSize := env.kLRTSegmentStateSize
  let jni_env_cookie_offset := env.LocalRefCookieOffset kPointerSize
  let jni_env_segment_state_offset := env.SegmentStateOffset kPointerSize
  let self := self.Load saved_cookie_reg jni_env_reg jni_env_cookie_offset kLRTSegmentStateSize
  let self := self.Load temp_reg jni_env_reg jni_env_segment_state_offset kLRTSegmentStateSize
  self.Store jni_env_reg jni_env_cookie_offset temp_reg kLRTSegmentStateSize

/-- PopLocalReferenceFrame: set the segment state to the current cookie, then restore the
cookie to the saved value. -/
def PopLocalReferenceFrame (env : JNIEnvExt) (self : JNIMacroAssembler kPointerSize)
    (jni_env_reg saved_cookie_reg temp_reg : ManagedRegister) :
    JNIMacroAssembler kPointerSize :=
  let kLRTSegmentStateSize := env.kLRTSegmentStateSize
  let jni_env_cookie_offset := env.LocalRefCookieOffset kPointerSize
  let jni_env_segment_state_offset := env.SegmentStateOffset kPointerSize
  let self := self.Load temp_reg jni_env_reg jni_env_cookie_offset kLRTSegmentStateSize
  let self := self.Store jni_env_reg jni_env_segment_state_offset temp_reg kLRTSegmentStateSize
  self.Store jni_env_reg jni_env_cookie_offset saved_cookie_reg kLRTSegmentStateSize

/-- The primitives a sequence of calls `f` adds to the assembler `self`. -/
def emittedBy (f : JNIMacroAssembler kPointerSize → JNIMacroAssembler kPointerSize)
    (self : JNIMacroAssembler kPointerSize) : List Primitive :=
  (f self).emitted.drop self.emitted.length

end JNIMacroAssembler

/-! ## Interpretation of the emitted primitives -/

/-- The machine the emitted primitives run on: a register file, the frame base used by the
frame-relative load, and a byte-addressed memory (a cell is read modulo 256). -/
structure MachineState where
  regs : ManagedRegister → Nat
  sp : Nat
  mem : Nat → Nat

/-- The little-endian value of the `n` bytes starting at `addr`. -/
def readBytes (mem : Nat → Nat) (addr : Nat) : Nat → Nat
  | 0 => 0
  | n + 1 => mem addr % 256 + 256 * readBytes mem (addr + 1) n

/-- The memory after the low `n` bytes of `v` are written, little-endian, at `addr`. -/
def writeBytes (mem : Nat → Nat) (addr v n : Nat) : Nat → Nat :=
  fun a => if addr ≤ a ∧ a < addr + n then v / 256 ^ (a - addr) % 256 else mem a

/-- Modelled from the spec: the backend primitives are pure virtual at this layer. They are
interpreted as `Load(dest, base, off, sz)`: `dest := mem[base + off]` and
`Store(base, off, src, sz)`: `mem[base + off] := src`, each moving `sz` bytes; the frame
overload reads `mem[sp + off]`. -/
def step (s : MachineState) : Primitive → MachineState
  | Primitive.Load dest base offs size =>
    { s with regs := fun r =>
        if r = dest then readBytes s.mem (s.regs base + offs.val) size else s.regs r }
  | Primitive.LoadFrame dest offs size =>
    { s with regs := fun r =>
        if r = dest then readBytes s.mem (s.sp + offs.val) size else s.regs r }
  | Primitive.Store base offs src size =>
    { s with mem := writeBytes s.mem (s.regs base + offs.val) (s.regs src) size }

/-- Running a sequence of emitted primitives, first to last. -/
def run (code : List Primitive) (s : MachineState) : MachineState :=
  code.foldl step s

/-- The value of the cookie field of the environment structure at address `envPtr`. -/
def cookie (env : JNIEnvExt) (w : PointerSize) (envPtr : Nat) (s : MachineState) : Nat :=
  readBytes s.mem (envPtr + (env.LocalRefCookieOffset w).val) env.kLRTSegmentStateSize

/-- The value of the segment-state field of the environment structure at address `envPtr`. -/
def segmentState (env : JNIEnvExt) (w : PointerSize) (envPtr : Nat) (s : MachineState) : Nat :=
  readBytes s.mem (envPtr + (env.SegmentStateOffset w).val) env.kLRTSegmentStateSize

/-- The cookie field and the segment-state field occupy disjoint byte ranges. -/
def fieldsDisjoint (env : JNIEnvExt) (w : PointerSize) : Prop :=
  (env.LocalRefCookieOffset w).val + env.kLRTSegmentStateSize ≤ (env.SegmentStateOffset w).val ∨
  (env.SegmentStateOffset w).val + env.kLRTSegmentStateSize ≤ (env.LocalRefCookieOffset w).val

instance (env : JNIEnvExt) (w : PointerSize) : Decidable (fieldsDisjoint env w) := by
  unfold fieldsDisjoint; infer_instance

/-- An instruction set whose backend is compiled into the build `cfg`. -/
def backendCompiledIn (cfg : BuildConfig) : InstructionSet → Bool
  | InstructionSet.kArm => cfg.ART_ENABLE_CODEGEN_arm
  | InstructionSet.kThumb2 => cfg.ART_ENABLE_CODEGEN_arm
  | InstructionSet.kX86 => cfg.ART_ENABLE_CODEGEN_x86
  | InstructionSet.kArm64 => cfg.ART_ENABLE_CODEGEN_arm64
  | InstructionSet.kRiscv64 => cfg.ART_ENABLE_CODEGEN_riscv64
  | InstructionSet.kX86_64 => cfg.ART_ENABLE_CODEGEN_x86_64
  | _ => false

/-- An instruction set that has a compiled-in `case` in the factory of width `w`. -/
def hasCase (cfg : BuildConfig) : PointerSize → InstructionSet → Bool
  | PointerSize.k32, InstructionSet.kArm => cfg.ART_ENABLE_CODEGEN_arm
  | PointerSize.k32, InstructionSet.kThumb2 => cfg.ART_ENABLE_CODEGEN_arm
  | PointerSize.k32, InstructionSet.kX86 => cfg.ART_ENABLE_CODEGEN_x86
  | PointerSize.k64, InstructionSet.kArm64 => cfg.ART_ENABLE_CODEGEN_arm64
  | PointerSize.k64, InstructionSet.kRiscv64 => cfg.ART_ENABLE_CODEGEN_riscv64
  | PointerSize.k64, InstructionSet.kX86_64 => cfg.ART_ENABLE_CODEGEN_x86_64
  | _, _ => false

/-- The build with every backend compiled in. -/
def allBackends : BuildConfig :=
  { ART_ENABLE_CODEGEN_arm := true, ART_ENABLE_CODEGEN_arm64 := true,
    ART_ENABLE_CODEGEN_riscv64 := true, ART_ENABLE_CODEGEN_x86 := true,
    ART_ENABLE_CODEGEN_x86_64 := true }

/-- The build with only the x86-64 backend compiled in. -/
def onlyX86_64 : BuildConfig :=
  { ART_ENABLE_CODEGEN_arm := false, ART_ENABLE_CODEGEN_arm64 := false,
    ART_ENABLE_CODEGEN_riscv64 := false, ART_ENABLE_CODEGEN_x86 := false,
    ART_ENABLE_CODEGEN_x86_64 := true }

/-- The byte ranges `[a, a + n)` and `[b, b + k)` do not overlap. -/
def rangesDisjoint (a n b k : Nat) : Prop :=
  a + n ≤ b ∨ b + k ≤ a

instance (a n b k : Nat) : Decidable (rangesDisjoint a n b k) := by
  unfold rangesDisjoint; infer_instance

/-- A layout used to evaluate the model: 4-byte fields, the cookie at offset 12 (32-bit) or
24 (64-bit), the segment state at offset 24 (32-bit) or 44 (64-bit). -/
def sampleLayout : JNIEnvExt :=
  { LocalRefCookieOffset := fun w => match w with
      | PointerSize.k32 => ⟨12⟩
      | PointerSize.k64 => ⟨24⟩,
    SegmentStateOffset := fun w => match w with
      | PointerSize.k32 => ⟨24⟩
      | PointerSize.k64 => ⟨44⟩,
    kLRTSegmentStateSize := 4 }

/-- A memory image for the 64-bit sample layout: register 0 points at an environment structure
at address 1000 with cookie 5 and segment state 9, and register 4 points at an object at
address 2000 whose 4-byte field at offset 0x10 holds 7. -/
def sampleState : MachineState :=
  { regs := fun r => if r.id = 0 then 1000 else if r.id = 4 then 2000 else 0,
    sp := 0,
    mem := fun a => if a = 1024 then 5 else if a = 1044 then 9 else if a = 2016 then 7 else 0 }

/-- The state `s` with the segment-state field of the structure at `envPtr` overwritten by
`v` (local references were created or deleted); registers and other memory are untouched. -/
def setSegmentState (env : JNIEnvExt) (w : PointerSize) (envPtr v : Nat) (s : MachineState) :
    MachineState :=
  { s with mem :=
      writeBytes s.mem (envPtr + (env.SegmentStateOffset w).val) v env.kLRTSegmentStateSize }

/-- The transfer size carried by a primitive. -/
def Primitive.size : Primitive → Nat
  | Primitive.Load _ _ _ size => size
  | Primitive.LoadFrame _ _ size => size
  | Primitive.Store _ _ _ size => size

/-- The member offset carried by a primitive (the frame overload carries none). -/
def Primitive.memberOffset : Primitive → Option MemberOffset
  | Primitive.Load _ _ offs _ => some offs
  | Primitive.LoadFrame _ _ _ => none
  | Primitive.Store _ offs _ _ => some offs

/-- The primitive with its member offset replaced through `f`. -/
def Primitive.replaceOffset (f : MemberOffset → MemberOffset) : Primitive → Primitive
  | Primitive.Load dest base offs size => Primitive.Load dest base (f offs) size
  | Primitive.LoadFrame dest offs size => Primitive.LoadFrame dest offs size
  | Primitive.Store base offs src size => Primitive.Store base (f offs) src size

/-- The layout table that answers every pointer size with the offsets `env` gives for `w`. -/
def JNIEnvExt.withOffsetsOf (env : JNIEnvExt) (w : PointerSize) : JNIEnvExt :=
  { LocalRefCookieOffset := fun _ => env.LocalRefCookieOffset w,
    SegmentStateOffset := fun _ => env.SegmentStateOffset w,
    kLRTSegmentStateSize := env.kLRTSegmentStateSize }

/-- The replacement of the 32-bit cookie and segment-state offsets by the 64-bit ones. -/
def offsets32To64 (env : JNIEnvExt) (o : MemberOffset) : MemberOffset :=
  if o = env.LocalRefCookieOffset PointerSize.k32 then env.LocalRefCookieOffset PointerSize.k64
  else if o = env.SegmentStateOffset PointerSize.k32 then
    env.SegmentStateOffset PointerSize.k64
  else o

/-- One event of a run-time scenario around the environment structure: the code of a Push or
of a Pop with the given saved-cookie register runs, or the segment-state field is changed to
`v` by other code (local references are created or deleted). -/
inductive FrameOp where
  | push (saved_cookie_reg : ManagedRegister)
  | pop (saved_cookie_reg : ManagedRegister)
  | setSegment (v : Nat)
  deriving DecidableEq, Repr

/-- The machine state of a scenario together with its bookkeeping: for every open scope the
saved-cookie register of its Push and the segment state when that Push ran (innermost first),
and for every Pop so far the pair (segment state after the Pop, segment state when the
matching Push ran). -/
structure FrameTrace where
  state : MachineState
  openScopes : List (ManagedRegister × Nat)
  popChecks : List (Nat × Nat)

/-- The segment state recorded for the innermost open scope. -/
def segmentAtPush : List (ManagedRegister × Nat) → Nat
  | [] => 0
  | top :: _ => top.2

/-- One event of a scenario, for the structure at address `envPtr`. -/
def stepFrameOp (env : JNIEnvExt) (w : PointerSize) (a : JNIMacroAssembler w)
    (jni_env_reg temp_reg : ManagedRegister) (envPtr : Nat) (tr : FrameTrace) :
    FrameOp → FrameTrace
  | FrameOp.push k =>
    { state := run (JNIMacroAssembler.emittedBy
        (fun x => x.PushLocalReferenceFrame env jni_env_reg k temp_reg) a) tr.state,
      openScopes := (k, segmentState env w envPtr tr.state) :: tr.openScopes,
      popChecks := tr.popChecks }
  | FrameOp.pop k =>
    { state := run (JNIMacroAssembler.emittedBy
        (fun x => x.PopLocalReferenceFrame env jni_env_reg k temp_reg) a) tr.state,
      openScopes := tr.openScopes.tail,
      popChecks :=
        (segmentState env w envPtr (run (JNIMacroAssembler.emittedBy
            (fun x => x.PopLocalReferenceFrame env jni_env_reg k temp_reg) a) tr.state),
          segmentAtPush tr.openScopes) :: tr.popChecks }
  | FrameOp.setSegment v =>
    { tr with state := setSegmentState env w envPtr v tr.state }

/-- A scenario, event by event. -/
def runFrameOps (env : JNIEnvExt) (w : PointerSize) (a : JNIMacroAssembler w)
    (jni_env_reg temp_reg : ManagedRegister) (envPtr : Nat) (ops : List FrameOp)
    (tr : FrameTrace) : FrameTrace :=
  ops.foldl (stepFrameOp env w a jni_env_reg temp_reg envPtr) tr

/-- The number of Pops in a scenario. -/
def countPops : List FrameOp → Nat
  | [] => 0
  | FrameOp.pop _ :: rest => countPops rest + 1
  | _ :: rest => countPops rest

/-- A scenario is well bracketed, given the saved-cookie registers of the scopes already open
(innermost first): a Push uses a register that is not `jni_env_reg`, not `temp_reg` and not
the register of an open scope; a Pop uses the register of the innermost open scope; at the end
no scope is open. With `topLevelChanges = false` the segment state is changed only while a
scope is open. -/
def wellBracketed (topLevelChanges : Bool) (jni_env_reg temp_reg : ManagedRegister) :
    List ManagedRegister → List FrameOp → Bool
  | opened, [] => opened.isEmpty
  | opened, FrameOp.push k :: rest =>
    decide (k ≠ jni_env_reg) && decide (k ≠ temp_reg) && decide (k ∉ opened) &&
      wellBracketed topLevelChanges jni_env_reg temp_reg (k :: opened) rest
  | [], FrameOp.pop _ :: _ => false
  | top :: below, FrameOp.pop k :: rest =>
    decide (k = top) && wellBracketed topLevelChanges jni_env_reg temp_reg below rest
  | opened, FrameOp.setSegment _ :: rest =>
    (topLevelChanges || !opened.isEmpty) &&
      wellBracketed topLevelChanges jni_env_reg temp_reg opened rest

/-- The cookie chain of the open scopes: the cookie field holds the segment state recorded for
the innermost scope, the saved-cookie register of each scope holds what the cookie field held
before its Push, and below the outermost scope that is `C0`. -/
def savedChain (n C0 : Nat) (regs : ManagedRegister → Nat) :
    List (ManagedRegister × Nat) → Nat → Prop
  | [], cv => cv = C0
  | p :: below, cv =>
    cv = p.2 ∧ regs p.1 % 256 ^ n = regs p.1 ∧ savedChain n C0 regs below (regs p.1)

/-- The segment state outside all open scopes: the one recorded for the outermost scope, or
the current one when no scope is open. -/
def baseSegment : List (ManagedRegister × Nat) → Nat → Nat
  | [], cur => cur
  | p :: below, _ => baseSegment below p.2

/-- The invariant of a well-bracketed scenario. -/
def FrameInv (env : JNIEnvExt) (w : PointerSize) (jni_env_reg temp_reg : ManagedRegister)
    (envPtr C0 S0 : Nat) (topLevelChanges : Bool) (tr : FrameTrace) : Prop :=
  tr.state.regs jni_env_reg = envPtr ∧
  (∀ p ∈ tr.openScopes, p.1 ≠ temp_reg) ∧
  savedChain env.kLRTSegmentStateSize C0 tr.state.regs tr.openScopes
    (cookie env w envPtr tr.state) ∧
  (∀ c ∈ tr.popChecks, c.1 = c.2) ∧
  (topLevelChanges = false →
    baseSegment tr.openScopes (segmentState env w envPtr tr.state) = S0)

open JNIMacroAssembler

/-! ## Lemmas: byte memory -/

theorem readBytes_lt (mem : Nat → Nat) (addr n : Nat) : readBytes mem addr n < 256 ^ n := by
  induction n generalizing addr with
  | zero => simp [readBytes]
  | succ n ih =>
    have h1 := ih (addr + 1)
    have h2 : mem addr % 256 < 256 := Nat.mod_lt _ (by norm_num)
    simp only [readBytes, pow_succ]
    omega

theorem readBytes_congr (m1 m2 : Nat → Nat) (addr n : Nat)
    (h : ∀ i, i < n → m1 (addr + i) % 256 = m2 (addr + i) % 256) :
    readBytes m1 addr n = readBytes m2 addr n := by
  induction n generalizing addr with
  | zero => simp [readBytes]
  | succ n ih =>
    have h0 := h 0 (Nat.succ_pos n)
    have hrest : readBytes m1 (addr + 1) n = readBytes m2 (addr + 1) n := by
      apply ih
      intro i hi
      have := h (i + 1) (by omega)
      rwa [show addr + (i + 1) = addr + 1 + i by omega] at this
    simp only [readBytes, Nat.add_zero] at h0 ⊢
    rw [h0, hrest]

theorem readBytes_byte (mem : Nat → Nat) (addr n i : Nat) (hi : i < n) :
    readBytes mem addr n / 256 ^ i % 256 = mem (addr + i) % 256 := by
  induction n generalizing addr i with
  | zero => omega
  | succ n ih =>
    cases i with
    | zero => simp [readBytes, Nat.add_mul_mod_self_left]
    | succ j =>
      have hj : j < n := by omega
      have hdiv : (mem addr % 256 + 256 * readBytes mem (addr + 1) n) / 256
          = readBytes mem (addr + 1) n := by
        have h2 : mem addr % 256 < 256 := Nat.mod_lt _ (by norm_num)
        omega
      rw [readBytes, pow_succ', ← Nat.div_div_eq_div_mul, hdiv, ih (addr + 1) j hj]
      congr 2
      omega

theorem writeBytes_inside (mem : Nat → Nat) (addr v n a : Nat) (h1 : addr ≤ a)
    (h2 : a < addr + n) : writeBytes mem addr v n a = v / 256 ^ (a - addr) % 256 := by
  simp [writeBytes, h1, h2]

theorem writeBytes_outside (mem : Nat → Nat) (addr v n a : Nat) (h : a < addr ∨ addr + n ≤ a) :
    writeBytes mem addr v n a = mem a := by
  have : ¬ (addr ≤ a ∧ a < addr + n) := by omega
  simp [writeBytes, this]

/-- Reading back the bytes of `v`: the low `n` bytes. -/
theorem readBytes_of_bytes (mem : Nat → Nat) (addr v n : Nat)
    (h : ∀ i, i < n → mem (addr + i) % 256 = v / 256 ^ i % 256) :
    readBytes mem addr n = v % 256 ^ n := by
  induction n generalizing addr v with
  | zero => simp [readBytes, Nat.mod_one]
  | succ n ih =>
    have h0 := h 0 (Nat.succ_pos n)
    have hrest : readBytes mem (addr + 1) n = v / 256 % 256 ^ n := by
      apply ih
      intro i hi
      have := h (i + 1) (by omega)
      rw [show addr + (i + 1) = addr + 1 + i by omega, pow_succ',
        ← Nat.div_div_eq_div_mul] at this
      exact this
    simp only [Nat.add_zero, pow_zero, Nat.div_one] at h0
    rw [readBytes, h0, hrest, pow_succ', Nat.mod_mul]

theorem readBytes_writeBytes_same (mem : Nat → Nat) (addr v n : Nat) :
    readBytes (writeBytes mem addr v n) addr n = v % 256 ^ n := by
  apply readBytes_of_bytes
  intro i hi
  rw [writeBytes_inside _ _ _ _ _ (by omega) (by omega)]
  simp

theorem readBytes_writeBytes_disjoint (mem : Nat → Nat) (addr v n b k : Nat)
    (h : b + k ≤ addr ∨ addr + n ≤ b) :
    readBytes (writeBytes mem addr v n) b k = readBytes mem b k := by
  apply readBytes_congr
  intro i hi
  rw [writeBytes_outside _ _ _ _ _ (by omega)]

/-! ## Theorems: factory -/

/-- C7 (factory coverage): when the backend of the requested instruction set is compiled in,
`Create` returns normally, and the assembler it returns has the backend class of that
instruction set, lives in the given arena and has emitted nothing: the 32-bit `Create` gives
the ARM backend for `kArm` and `kThumb2` and the x86 backend for `kX86`; the 64-bit `Create`
gives the arm64, riscv64 and x86-64 backend for `kArm64`, `kRiscv64` and `kX86_64`. -/
theorem Create_coverage (cfg : BuildConfig) (allocator : ArenaAllocator)
    (features : Option InstructionSetFeatures) :
    (cfg.ART_ENABLE_CODEGEN_arm = true →
      Create cfg PointerSize.k32 allocator InstructionSet.kArm features
        = Except.ok { backend := Backend.ArmVIXLJNIMacroAssembler, allocator := allocator,
                      emitted := [] } ∧
      Create cfg PointerSize.k32 allocator InstructionSet.kThumb2 features
        = Except.ok { backend := Backend.ArmVIXLJNIMacroAssembler, allocator := allocator,
                      emitted := [] }) ∧
    (cfg.ART_ENABLE_CODEGEN_x86 = true →
      Create cfg PointerSize.k32 allocator InstructionSet.kX86 features
        = Except.ok { backend := Backend.X86JNIMacroAssembler, allocator := allocator,
                      emitted := [] }) ∧
    (cfg.ART_ENABLE_CODEGEN_arm64 = true →
      Create cfg PointerSize.k64 allocator InstructionSet.kArm64 features
        = Except.ok { backend := Backend.Arm64JNIMacroAssembler, allocator := allocator,
                      emitted := [] }) ∧
    (cfg.ART_ENABLE_CODEGEN_riscv64 = true →
      Create cfg PointerSize.k64 allocator InstructionSet.kRiscv64 features
        = Except.ok { backend := Backend.Riscv64JNIMacroAssembler, allocator := allocator,
                      emitted := [] }) ∧
    (cfg.ART_ENABLE_CODEGEN_x86_64 = true →
      Create cfg PointerSize.k64 allocator InstructionSet.kX86_64 features
        = Except.ok { backend := Backend.X86_64JNIMacroAssembler, allocator := allocator,
                      emitted := [] }) := by
  refine ⟨?_, ?_, ?_, ?_, ?_⟩ <;> intro h <;> simp [Create, construct, h]

/-- Witness of C7 in the build with every backend: the 64-bit factory on `kRiscv64` returns an
assembler whose backend is the riscv64 one, in arena 7. -/
theorem Create_coverage_witness :
    Create allBackends PointerSize.k64 ⟨7⟩ InstructionSet.kRiscv64 none
      = Except.ok { backend := Backend.Riscv64JNIMacroAssembler, allocator := ⟨7⟩,
                    emitted := [] } :=
  (Create_coverage allBackends ⟨7⟩ none).2.2.2.1 rfl

/-- C8 (width isolation): in every build the 32-bit `Create` takes the fatal path on `kArm64`,
`kRiscv64` and `kX86_64`, and the 64-bit `Create` takes it on `kArm`, `kThumb2` and `kX86`. -/
theorem Create_width_isolation (cfg : BuildConfig) (allocator : ArenaAllocator)
    (features : Option InstructionSetFeatures) :
    Create cfg PointerSize.k32 allocator InstructionSet.kArm64 features = Except.error
      [LogItem.text "Unknown/unsupported 4B InstructionSet: ",
        LogItem.isa InstructionSet.kArm64] ∧
    Create cfg PointerSize.k32 allocator InstructionSet.kRiscv64 features = Except.error
      [LogItem.text "Unknown/unsupported 4B InstructionSet: ",
        LogItem.isa InstructionSet.kRiscv64] ∧
    Create cfg PointerSize.k32 allocator InstructionSet.kX86_64 features = Except.error
      [LogItem.text "Unknown/unsupported 4B InstructionSet: ",
        LogItem.isa InstructionSet.kX86_64] ∧
    Create cfg PointerSize.k64 allocator InstructionSet.kArm features = Except.error
      [LogItem.text "Unknown/unsupported 8B InstructionSet: ",
        LogItem.isa InstructionSet.kArm] ∧
    Create cfg PointerSize.k64 allocator InstructionSet.kThumb2 features = Except.error
      [LogItem.text "Unknown/unsupported 8B InstructionSet: ",
        LogItem.isa InstructionSet.kThumb2] ∧
    Create cfg PointerSize.k64 allocator InstructionSet.kX86 features = Except.error
      [LogItem.text "Unknown/unsupported 8B InstructionSet: ",
        LogItem.isa InstructionSet.kX86] := by
  refine ⟨?_, ?_, ?_, ?_, ?_, ?_⟩ <;> simp [Create]

/-- C9 (unsupported instruction set is fatal): in every build and for every instruction set,
a factory without a compiled-in case for it fails with the single diagnostic
"Unknown/unsupported 4B InstructionSet: isa" (32-bit) or
"Unknown/unsupported 8B InstructionSet: isa" (64-bit); a factory returns an assembler exactly
when it has a compiled-in case; and an instruction set whose backend is not compiled in has a
case in neither factory. -/
theorem Create_unsupported_fatal (cfg : BuildConfig) (allocator : ArenaAllocator)
    (isa : InstructionSet) (features : Option InstructionSetFeatures)
    (isaName : InstructionSet → String) :
    (hasCase cfg PointerSize.k32 isa = false →
      ∃ log, Create cfg PointerSize.k32 allocator isa features = Except.error log ∧
        FatalLog.render isaName log = "Unknown/unsupported 4B InstructionSet: " ++ isaName isa) ∧
    (hasCase cfg PointerSize.k64 isa = false →
      ∃ log, Create cfg PointerSize.k64 allocator isa features = Except.error log ∧
        FatalLog.render isaName log = "Unknown/unsupported 8B InstructionSet: " ++ isaName isa) ∧
    (∀ w, (∃ a, Create cfg w allocator isa features = Except.ok a) ↔ hasCase cfg w isa = true) ∧
    (backendCompiledIn cfg isa = false → ∀ w, hasCase cfg w isa = false) := by
  refine ⟨?_, ?_, ?_, ?_⟩
  · intro h
    refine ⟨[LogItem.text "Unknown/unsupported 4B InstructionSet: ", LogItem.isa isa], ?_, ?_⟩
    · cases isa <;> simp_all [Create, hasCase]
    · simp [FatalLog.render]
  · intro h
    refine ⟨[LogItem.text "Unknown/unsupported 8B InstructionSet: ", LogItem.isa isa], ?_, ?_⟩
    · cases isa <;> simp_all [Create, hasCase]
    · simp [FatalLog.render]
  · intro w
    cases w <;> cases isa <;> simp [Create, hasCase] <;> split <;> simp_all
  · intro h w
    cases w <;> cases isa <;> simp_all [backendCompiledIn, hasCase]

/-- Witness of C9: with only x86-64 compiled in, `kNone` is fatal in the 64-bit factory. -/
theorem Create_unsupported_fatal_witness :
    ∃ log, Create onlyX86_64 PointerSize.k64 ⟨0⟩ InstructionSet.kNone none = Except.error log ∧
      FatalLog.render (fun _ => "none") log = "Unknown/unsupported 8B InstructionSet: none" :=
  (Create_unsupported_fatal onlyX86_64 ⟨0⟩ InstructionSet.kNone none (fun _ => "none")).2.1 rfl

/-! ## Lemmas: the emitted sequences and their effect -/

variable {w : PointerSize}

theorem emittedBy_Load (a : JNIMacroAssembler w) (dest base : ManagedRegister)
    (offs : MemberOffset) (size : Nat) :
    emittedBy (fun x => x.Load dest base offs size) a = [Primitive.Load dest base offs size] := by
  simp [emittedBy, JNIMacroAssembler.Load]

theorem emittedBy_LoadFrame (a : JNIMacroAssembler w) (dest : ManagedRegister)
    (offs : FrameOffset) (size : Nat) :
    emittedBy (fun x => x.LoadFrame dest offs size) a = [Primitive.LoadFrame dest offs size] := by
  simp [emittedBy, JNIMacroAssembler.LoadFrame]

theorem emitted_Push (env : JNIEnvExt) (a : JNIMacroAssembler w) (e k t : ManagedRegister) :
    (a.PushLocalReferenceFrame env e k t).emitted = a.emitted ++
      [Primitive.Load k e (env.LocalRefCookieOffset w) env.kLRTSegmentStateSize,
       Primitive.Load t e (env.SegmentStateOffset w) env.kLRTSegmentStateSize,
       Primitive.Store e (env.LocalRefCookieOffset w) t env.kLRTSegmentStateSize] := by
  simp [PushLocalReferenceFrame, JNIMacroAssembler.Load, JNIMacroAssembler.Store]

theorem emitted_Pop (env : JNIEnvExt) (a : JNIMacroAssembler w) (e k t : ManagedRegister) :
    (a.PopLocalReferenceFrame env e k t).emitted = a.emitted ++
      [Primitive.Load t e (env.LocalRefCookieOffset w) env.kLRTSegmentStateSize,
       Primitive.Store e (env.SegmentStateOffset w) t env.kLRTSegmentStateSize,
       Primitive.Store e (env.LocalRefCookieOffset w) k env.kLRTSegmentStateSize] := by
  simp [PopLocalReferenceFrame, JNIMacroAssembler.Load, JNIMacroAssembler.Store]

theorem emitted_LoadGcRoot (a : JNIMacroAssembler w) (dest base : ManagedRegister)
    (offs : MemberOffset) :
    (a.LoadGcRootWithoutReadBarrier dest base offs).emitted
      = a.emitted ++ [Primitive.Load dest base offs 4] := by
  simp [LoadGcRootWithoutReadBarrier, JNIMacroAssembler.Load, sizeof_uint32_t]

theorem run_append (c1 c2 : List Primitive) (s : MachineState) :
    run (c1 ++ c2) s = run c2 (run c1 s) := by
  simp [run, List.foldl_append]

/-- The three primitives of Push, as a list. -/
theorem emittedBy_Push (env : JNIEnvExt) (a : JNIMacroAssembler w) (e k t : ManagedRegister) :
    emittedBy (fun x => x.PushLocalReferenceFrame env e k t) a =
      [Primitive.Load k e (env.LocalRefCookieOffset w) env.kLRTSegmentStateSize,
       Primitive.Load t e (env.SegmentStateOffset w) env.kLRTSegmentStateSize,
       Primitive.Store e (env.LocalRefCookieOffset w) t env.kLRTSegmentStateSize] := by
  simp [emittedBy, emitted_Push]

/-- The three primitives of Pop, as a list. -/
theorem emittedBy_Pop (env : JNIEnvExt) (a : JNIMacroAssembler w) (e k t : ManagedRegister) :
    emittedBy (fun x => x.PopLocalReferenceFrame env e k t) a =
      [Primitive.Load t e (env.LocalRefCookieOffset w) env.kLRTSegmentStateSize,
       Primitive.Store e (env.SegmentStateOffset w) t env.kLRTSegmentStateSize,
       Primitive.Store e (env.LocalRefCookieOffset w) k env.kLRTSegmentStateSize] := by
  simp [emittedBy, emitted_Pop]

/-- The state after the code of Push, when the environment register is not clobbered. -/
theorem run_Push (env : JNIEnvExt) (a : JNIMacroAssembler w) (e k t : ManagedRegister)
    (s : MachineState) (hek : e ≠ k) (het : e ≠ t) :
    run (emittedBy (fun x => x.PushLocalReferenceFrame env e k t) a) s =
      { regs := fun r => if r = t then segmentState env w (s.regs e) s
          else if r = k then cookie env w (s.regs e) s else s.regs r,
        sp := s.sp,
        mem := writeBytes s.mem (s.regs e + (env.LocalRefCookieOffset w).val)
          (segmentState env w (s.regs e) s) env.kLRTSegmentStateSize } := by
  simp [emittedBy_Push, run, step, hek, het, cookie, segmentState]

/-- The state after the code of Pop, when the environment register is not clobbered. -/
theorem run_Pop (env : JNIEnvExt) (a : JNIMacroAssembler w) (e k t : ManagedRegister)
    (s : MachineState) (het : e ≠ t) :
    run (emittedBy (fun x => x.PopLocalReferenceFrame env e k t) a) s =
      { regs := fun r => if r = t then cookie env w (s.regs e) s else s.regs r,
        sp := s.sp,
        mem := writeBytes
          (writeBytes s.mem (s.regs e + (env.SegmentStateOffset w).val)
            (cookie env w (s.regs e) s) env.kLRTSegmentStateSize)
          (s.regs e + (env.LocalRefCookieOffset w).val)
          (if k = t then cookie env w (s.regs e) s else s.regs k)
          env.kLRTSegmentStateSize } := by
  simp [emittedBy_Pop, run, step, het, cookie]

theorem readBytes_congr_all (m1 m2 : Nat → Nat) (h : ∀ x, m1 x % 256 = m2 x % 256)
    (addr n : Nat) : readBytes m1 addr n = readBytes m2 addr n :=
  readBytes_congr m1 m2 addr n (fun i _ => h (addr + i))

theorem readBytes_mod (mem : Nat → Nat) (addr n : Nat) :
    readBytes mem addr n % 256 ^ n = readBytes mem addr n :=
  Nat.mod_eq_of_lt (readBytes_lt mem addr n)

theorem writeBytes_congr (m1 m2 : Nat → Nat) (h : ∀ x, m1 x % 256 = m2 x % 256)
    (addr v n x : Nat) : writeBytes m1 addr v n x % 256 = writeBytes m2 addr v n x % 256 := by
  unfold writeBytes
  split
  · rfl
  · exact h x

/-- Writing back what a field holds leaves every byte as it was. -/
theorem writeBytes_readBytes (mem : Nat → Nat) (addr n x : Nat) :
    writeBytes mem addr (readBytes mem addr n) n x % 256 = mem x % 256 := by
  by_cases hx : addr ≤ x ∧ x < addr + n
  · rw [writeBytes_inside _ _ _ _ _ hx.1 hx.2, Nat.mod_mod,
      readBytes_byte mem addr n (x - addr) (by omega)]
    congr 2
    omega
  · rw [writeBytes_outside _ _ _ _ _ (by omega)]

/-- A later store to a field hides an earlier store to the same field. -/
theorem writeBytes_shadow (mem : Nat → Nat) (c sg x y z n : Nat) :
    writeBytes (writeBytes (writeBytes mem c x n) sg y n) c z n
      = writeBytes (writeBytes mem sg y n) c z n := by
  funext a
  simp only [writeBytes]
  split
  · rfl
  · split
    · rfl
    · rename_i h _
      simp [h]

/-- The memory after Push and then Pop (with the saved cookie `C`): every byte is as before,
whether or not the two fields overlap. -/
theorem pop_after_push_mem (mem : Nat → Nat) (c sg n x : Nat) :
    writeBytes (writeBytes (writeBytes mem c (readBytes mem sg n) n) sg
        (readBytes (writeBytes mem c (readBytes mem sg n) n) c n) n) c (readBytes mem c n) n x
        % 256 = mem x % 256 := by
  rw [readBytes_writeBytes_same, readBytes_mod, writeBytes_shadow]
  rw [writeBytes_congr _ mem (writeBytes_readBytes mem sg n) c _ n x]
  exact writeBytes_readBytes mem c n x

/-- The emitted code of Push followed by Pop. -/
theorem emittedBy_Push_Pop (env : JNIEnvExt) (a : JNIMacroAssembler w)
    (e k t e2 k2 t2 : ManagedRegister) :
    emittedBy (fun x =>
        (x.PushLocalReferenceFrame env e k t).PopLocalReferenceFrame env e2 k2 t2) a
      = emittedBy (fun x => x.PushLocalReferenceFrame env e k t) a ++
        emittedBy (fun x => x.PopLocalReferenceFrame env e2 k2 t2) a := by
  simp [emittedBy, emitted_Push, emitted_Pop]

/-- The state after Push and then the matching Pop: registers `k` and `t` hold the old cookie
and the old segment state, and every byte of memory is as before. -/
theorem run_Push_Pop (env : JNIEnvExt) (a1 a2 : JNIMacroAssembler w) (e k t : ManagedRegister)
    (s : MachineState) (hek : e ≠ k) (het : e ≠ t) (hkt : k ≠ t) :
    (∀ x, (run (emittedBy (fun x => x.PopLocalReferenceFrame env e k t) a2)
        (run (emittedBy (fun x => x.PushLocalReferenceFrame env e k t) a1) s)).mem x % 256
          = s.mem x % 256) ∧
    (run (emittedBy (fun x => x.PopLocalReferenceFrame env e k t) a2)
        (run (emittedBy (fun x => x.PushLocalReferenceFrame env e k t) a1) s)).regs
      = fun r => if r = t then segmentState env w (s.regs e) s
          else if r = k then cookie env w (s.regs e) s else s.regs r := by
  rw [run_Push env a1 e k t s hek het, run_Pop env a2 e k t _ het]
  simp only [hek, het, hkt, if_false, cookie, segmentState]
  constructor
  · intro x
    exact pop_after_push_mem s.mem _ _ _ x
  · funext r
    by_cases hr : r = t
    · simp [hr, readBytes_writeBytes_same, readBytes_mod]
    · simp [hr]

/-- Pop restores the memory that a Push started from: if the memory of `s1` is the memory `m`
with the cookie field set to the segment state of `m`, and `k` holds the cookie of `m`, then
after the code of Pop every byte is as in `m`. The two fields may overlap. -/
theorem run_Pop_restores (env : JNIEnvExt) (a : JNIMacroAssembler w) (e k t : ManagedRegister)
    (s1 : MachineState) (m : Nat → Nat) (het : e ≠ t) (hkt : k ≠ t)
    (hmem : ∀ x, s1.mem x % 256 =
      writeBytes m (s1.regs e + (env.LocalRefCookieOffset w).val)
        (readBytes m (s1.regs e + (env.SegmentStateOffset w).val) env.kLRTSegmentStateSize)
        env.kLRTSegmentStateSize x % 256)
    (hk : s1.regs k =
      readBytes m (s1.regs e + (env.LocalRefCookieOffset w).val) env.kLRTSegmentStateSize) :
    (∀ x, (run (emittedBy (fun x => x.PopLocalReferenceFrame env e k t) a) s1).mem x % 256
      = m x % 256) ∧
    (run (emittedBy (fun x => x.PopLocalReferenceFrame env e k t) a) s1).regs
      = fun r => if r = t
          then readBytes m (s1.regs e + (env.SegmentStateOffset w).val) env.kLRTSegmentStateSize
          else s1.regs r := by
  have hc : cookie env w (s1.regs e) s1 =
      readBytes m (s1.regs e + (env.SegmentStateOffset w).val) env.kLRTSegmentStateSize := by
    unfold cookie
    rw [readBytes_congr_all _ _ hmem, readBytes_writeBytes_same, readBytes_mod]
  rw [run_Pop env a e k t s1 het]
  simp only [hkt, if_false, hc, hk]
  constructor
  · intro x
    rw [writeBytes_congr _ _ (writeBytes_congr _ _ hmem _ _ _) _ _ _ x, writeBytes_shadow,
      writeBytes_congr _ m (writeBytes_readBytes m _ _) _ _ _ x]
    exact writeBytes_readBytes m _ _ x
  · trivial

/-! ## Lemmas: well-bracketed scenarios -/

theorem savedChain_congr (n C0 : Nat) (regs regs2 : ManagedRegister → Nat)
    (st : List (ManagedRegister × Nat)) (cv : Nat) (h : ∀ p ∈ st, regs2 p.1 = regs p.1)
    (hc : savedChain n C0 regs st cv) : savedChain n C0 regs2 st cv := by
  induction st generalizing cv with
  | nil => exact hc
  | cons p below ih =>
    obtain ⟨h1, h2, h3⟩ := hc
    have hp := h p (List.mem_cons_self _ _)
    refine ⟨h1, ?_, ?_⟩
    · rw [hp]; exact h2
    · rw [hp]
      exact ih _ (fun q hq => h q (List.mem_cons_of_mem _ hq)) h3

/-- A Push with a fresh saved-cookie register keeps the invariant. -/
theorem FrameInv_push (env : JNIEnvExt) (w : PointerSize) (a : JNIMacroAssembler w)
    (e t : ManagedRegister) (envPtr C0 S0 : Nat) (top : Bool) (tr : FrameTrace)
    (k : ManagedRegister) (het : e ≠ t) (hdisj : fieldsDisjoint env w)
    (hke : k ≠ e) (hkt : k ≠ t) (hk : ∀ p ∈ tr.openScopes, p.1 ≠ k)
    (h : FrameInv env w e t envPtr C0 S0 top tr) :
    FrameInv env w e t envPtr C0 S0 top
      (stepFrameOp env w a e t envPtr tr (FrameOp.push k)) := by
  obtain ⟨he, hst, hch, hpc, hbase⟩ := h
  unfold fieldsDisjoint at hdisj
  unfold FrameInv
  simp only [stepFrameOp]
  rw [run_Push env a e k t tr.state (Ne.symm hke) het, he]
  have hck : cookie env w envPtr
      { regs := fun r => if r = t then segmentState env w envPtr tr.state
          else if r = k then cookie env w envPtr tr.state else tr.state.regs r,
        sp := tr.state.sp,
        mem := writeBytes tr.state.mem (envPtr + (env.LocalRefCookieOffset w).val)
          (segmentState env w envPtr tr.state) env.kLRTSegmentStateSize }
      = segmentState env w envPtr tr.state := by
    show readBytes (writeBytes _ _ _ _) _ _ = _
    rw [readBytes_writeBytes_same]
    exact readBytes_mod _ _ _
  have hsg : segmentState env w envPtr
      { regs := fun r => if r = t then segmentState env w envPtr tr.state
          else if r = k then cookie env w envPtr tr.state else tr.state.regs r,
        sp := tr.state.sp,
        mem := writeBytes tr.state.mem (envPtr + (env.LocalRefCookieOffset w).val)
          (segmentState env w envPtr tr.state) env.kLRTSegmentStateSize }
      = segmentState env w envPtr tr.state := by
    show readBytes (writeBytes _ _ _ _) _ _ = _
    rw [readBytes_writeBytes_disjoint _ _ _ _ _ _ (by omega)]
    rfl
  refine ⟨?_, ?_, ?_, hpc, ?_⟩
  · simp [het, Ne.symm hke, he]
  · intro p hp
    rcases List.mem_cons.mp hp with hp | hp
    · subst hp; exact hkt
    · exact hst p hp
  · rw [hck]
    refine ⟨rfl, ?_, ?_⟩
    · simp only [hkt, if_false, if_true]
      exact readBytes_mod _ _ _
    · simp only [hkt, if_false, if_true]
      refine savedChain_congr _ _ tr.state.regs _ _ _ ?_ hch
      intro p hp
      simp [hst p hp, hk p hp]
  · intro htop
    rw [hsg]
    exact hbase htop

/-- A Pop of the innermost open scope keeps the invariant, and its check holds. -/
theorem FrameInv_pop (env : JNIEnvExt) (w : PointerSize) (a : JNIMacroAssembler w)
    (e t : ManagedRegister) (envPtr C0 S0 : Nat) (top : Bool) (tr : FrameTrace)
    (k : ManagedRegister) (S : Nat) (below : List (ManagedRegister × Nat))
    (het : e ≠ t) (hdisj : fieldsDisjoint env w) (hopen : tr.openScopes = (k, S) :: below)
    (h : FrameInv env w e t envPtr C0 S0 top tr) :
    FrameInv env w e t envPtr C0 S0 top
      (stepFrameOp env w a e t envPtr tr (FrameOp.pop k)) := by
  obtain ⟨he, hst, hch, hpc, hbase⟩ := h
  rw [hopen] at hst hch hbase
  obtain ⟨hcS, hkr, hrest⟩ := hch
  have hkt : k ≠ t := hst (k, S) (List.mem_cons_self _ _)
  simp only at hcS hkr hrest
  have hSr : S % 256 ^ env.kLRTSegmentStateSize = S := by
    rw [← hcS]; exact readBytes_mod _ _ _
  unfold fieldsDisjoint at hdisj
  unfold FrameInv
  simp only [stepFrameOp, hopen, List.tail_cons, segmentAtPush]
  rw [run_Pop env a e k t tr.state het, he, hcS]
  simp only [hkt, if_false]
  have hck : cookie env w envPtr
      { regs := fun r => if r = t then S else tr.state.regs r,
        sp := tr.state.sp,
        mem := writeBytes
          (writeBytes tr.state.mem (envPtr + (env.SegmentStateOffset w).val) S
            env.kLRTSegmentStateSize)
          (envPtr + (env.LocalRefCookieOffset w).val) (tr.state.regs k)
          env.kLRTSegmentStateSize }
      = tr.state.regs k := by
    show readBytes (writeBytes _ _ _ _) _ _ = _
    rw [readBytes_writeBytes_same, hkr]
  have hsg : segmentState env w envPtr
      { regs := fun r => if r = t then S else tr.state.regs r,
        sp := tr.state.sp,
        mem := writeBytes
          (writeBytes tr.state.mem (envPtr + (env.SegmentStateOffset w).val) S
            env.kLRTSegmentStateSize)
          (envPtr + (env.LocalRefCookieOffset w).val) (tr.state.regs k)
          env.kLRTSegmentStateSize }
      = S := by
    show readBytes (writeBytes _ _ _ _) _ _ = _
    rw [readBytes_writeBytes_disjoint _ _ _ _ _ _ (by omega), readBytes_writeBytes_same, hSr]
  refine ⟨?_, ?_, ?_, ?_, ?_⟩
  · simp [het, he]
  · intro p hp
    exact hst p (List.mem_cons_of_mem _ hp)
  · rw [hck]
    refine savedChain_congr _ _ tr.state.regs _ _ _ ?_ hrest
    intro p hp
    simp [hst p (List.mem_cons_of_mem _ hp)]
  · intro c hc
    rcases List.mem_cons.mp hc with hc | hc
    · subst hc; exact hsg
    · exact hpc c hc
  · intro htop
    rw [hsg]
    exact hbase htop

/-- A change of the segment state keeps the invariant, provided a scope is open or changes
outside all scopes are allowed. -/
theorem FrameInv_setSegment (env : JNIEnvExt) (w : PointerSize) (a : JNIMacroAssembler w)
    (e t : ManagedRegister) (envPtr C0 S0 : Nat) (top : Bool) (tr : FrameTrace) (v : Nat)
    (hdisj : fieldsDisjoint env w) (hopen : top = true ∨ tr.openScopes ≠ [])
    (h : FrameInv env w e t envPtr C0 S0 top tr) :
    FrameInv env w e t envPtr C0 S0 top
      (stepFrameOp env w a e t envPtr tr (FrameOp.setSegment v)) := by
  obtain ⟨he, hst, hch, hpc, hbase⟩ := h
  unfold fieldsDisjoint at hdisj
  unfold FrameInv
  simp only [stepFrameOp]
  have hck : cookie env w envPtr (setSegmentState env w envPtr v tr.state)
      = cookie env w envPtr tr.state := by
    show readBytes (writeBytes _ _ _ _) _ _ = _
    rw [readBytes_writeBytes_disjoint _ _ _ _ _ _ (by omega)]
    rfl
  refine ⟨he, hst, ?_, hpc, ?_⟩
  · rw [hck]; exact hch
  · intro htop
    rcases hopen with h1 | h1
    · rw [h1] at htop; exact absurd htop (by decide)
    · have hb := hbase htop
      cases hs : tr.openScopes with
      | nil => exact absurd hs h1
      | cons p below =>
        rw [hs] at hb
        exact hb

/-- A well-bracketed scenario keeps the invariant, closes every scope and records one check
per Pop. -/
theorem runFrameOps_inv (env : JNIEnvExt) (w : PointerSize) (a : JNIMacroAssembler w)
    (e t : ManagedRegister) (envPtr C0 S0 : Nat) (top : Bool) (het : e ≠ t)
    (hdisj : fieldsDisjoint env w) (ops : List FrameOp) :
    ∀ tr : FrameTrace, FrameInv env w e t envPtr C0 S0 top tr →
      wellBracketed top e t (tr.openScopes.map Prod.fst) ops = true →
      FrameInv env w e t envPtr C0 S0 top (runFrameOps env w a e t envPtr ops tr) ∧
      (runFrameOps env w a e t envPtr ops tr).openScopes = [] ∧
      (runFrameOps env w a e t envPtr ops tr).popChecks.length
        = tr.popChecks.length + countPops ops := by
  induction ops with
  | nil =>
    intro tr hinv hwb
    simp only [wellBracketed, List.isEmpty_eq_true, List.map_eq_nil_iff] at hwb
    exact ⟨hinv, hwb, rfl⟩
  | cons op rest ih =>
    intro tr hinv hwb
    cases op with
    | push k =>
      simp only [wellBracketed, Bool.and_eq_true, decide_eq_true_eq, List.mem_map,
        not_exists, not_and] at hwb
      obtain ⟨⟨⟨hke, hkt⟩, hk⟩, hrest⟩ := hwb
      have hk2 : ∀ p ∈ tr.openScopes, p.1 ≠ k := fun p hp => hk p hp
      have hstep := FrameInv_push env w a e t envPtr C0 S0 top tr k het hdisj hke hkt hk2 hinv
      obtain ⟨h1, h2, h3⟩ := ih _ hstep hrest
      exact ⟨h1, h2, h3⟩
    | pop k =>
      cases hopen : tr.openScopes with
      | nil =>
        rw [hopen] at hwb
        simp [wellBracketed] at hwb
      | cons p below =>
        obtain ⟨k2, S⟩ := p
        rw [hopen] at hwb
        simp only [List.map_cons, wellBracketed, Bool.and_eq_true, decide_eq_true_eq] at hwb
        obtain ⟨hkk, hrest⟩ := hwb
        subst hkk
        have hstep := FrameInv_pop env w a e t envPtr C0 S0 top tr k S below het hdisj
          hopen hinv
        have hrest2 : wellBracketed top e t
            ((stepFrameOp env w a e t envPtr tr (FrameOp.pop k)).openScopes.map Prod.fst) rest
            = true := by
          simp only [stepFrameOp, hopen, List.tail_cons]
          exact hrest
        obtain ⟨h1, h2, h3⟩ := ih _ hstep hrest2
        refine ⟨h1, h2, ?_⟩
        rw [runFrameOps, List.foldl_cons, ← runFrameOps, h3]
        simp only [stepFrameOp, List.length_cons, countPops]
        omega
    | setSegment v =>
      simp only [wellBracketed, Bool.and_eq_true, Bool.or_eq_true, Bool.not_eq_true',
        List.isEmpty_eq_false, List.isEmpty_iff, ne_eq, List.map_eq_nil_iff] at hwb
      obtain ⟨hopen, hrest⟩ := hwb
      have hopen2 : top = true ∨ tr.openScopes ≠ [] := by
        rcases hopen with h | h
        · exact Or.inl h
        · right
          intro h0
          rw [h0] at h
          simp at h
      have hstep := FrameInv_setSegment env w a e t envPtr C0 S0 top tr v hdisj hopen2 hinv
      obtain ⟨h1, h2, h3⟩ := ih _ hstep hrest
      exact ⟨h1, h2, h3⟩

/-! ## Theorems: fixed-size loads -/

/-- C5: for both pointer widths, `LoadGcRootWithoutReadBarrier(dest, base, offs)` emits exactly
one primitive, `Load(dest, base, offs, 4)`, after whatever was emitted before, and changes
nothing else of the assembler. -/
theorem LoadGcRootWithoutReadBarrier_emits (w : PointerSize) (a : JNIMacroAssembler w)
    (dest base : ManagedRegister) (offs : MemberOffset) :
    emittedBy (fun x => x.LoadGcRootWithoutReadBarrier dest base offs) a
      = [Primitive.Load dest base offs 4] ∧
    a.LoadGcRootWithoutReadBarrier dest base offs
      = { a with emitted := a.emitted ++ [Primitive.Load dest base offs 4] } := by
  constructor
  · simp [emittedBy, emitted_LoadGcRoot]
  · rfl

/-- C6: for both pointer widths, `LoadStackReference(dest, offs)` emits exactly one primitive,
the frame-relative `Load(dest, offs, 4)`, after whatever was emitted before, and changes
nothing else of the assembler. -/
theorem LoadStackReference_emits (w : PointerSize) (a : JNIMacroAssembler w)
    (dest : ManagedRegister) (offs : FrameOffset) :
    emittedBy (fun x => x.LoadStackReference dest offs) a
      = [Primitive.LoadFrame dest offs 4] ∧
    a.LoadStackReference dest offs
      = { a with emitted := a.emitted ++ [Primitive.LoadFrame dest offs 4] } := by
  constructor
  · simp [emittedBy, LoadStackReference, JNIMacroAssembler.LoadFrame, sizeof_uint32_t]
  · rfl

/-! ## Theorems: the local reference frame protocol -/

/-- C1 (Push postcondition): for either pointer width, with the three registers pairwise
distinct and the cookie and segment-state fields not overlapping, if initially the cookie is
`C0` and the segment state is `S0`, then after the code emitted by `PushLocalReferenceFrame`
the cookie field equals `S0`, the segment-state field still equals `S0`, and the saved-cookie
register holds `C0` (the environment register still points at the structure). -/
theorem Push_postcondition (env : JNIEnvExt) (w : PointerSize) (a : JNIMacroAssembler w)
    (jni_env_reg saved_cookie_reg temp_reg : ManagedRegister) (s : MachineState) (C0 S0 : Nat)
    (hek : jni_env_reg ≠ saved_cookie_reg) (het : jni_env_reg ≠ temp_reg)
    (hkt : saved_cookie_reg ≠ temp_reg) (hdisj : fieldsDisjoint env w)
    (hC : cookie env w (s.regs jni_env_reg) s = C0)
    (hS : segmentState env w (s.regs jni_env_reg) s = S0) :
    cookie env w (s.regs jni_env_reg)
      (run (emittedBy (fun x =>
        x.PushLocalReferenceFrame env jni_env_reg saved_cookie_reg temp_reg) a) s) = S0 ∧
    segmentState env w (s.regs jni_env_reg)
      (run (emittedBy (fun x =>
        x.PushLocalReferenceFrame env jni_env_reg saved_cookie_reg temp_reg) a) s) = S0 ∧
    (run (emittedBy (fun x =>
        x.PushLocalReferenceFrame env jni_env_reg saved_cookie_reg temp_reg) a) s).regs
      saved_cookie_reg = C0 ∧
    (run (emittedBy (fun x =>
        x.PushLocalReferenceFrame env jni_env_reg saved_cookie_reg temp_reg) a) s).regs
      jni_env_reg = s.regs jni_env_reg := by
  rw [run_Push env a _ _ _ s hek het, hC, hS]
  refine ⟨?_, ?_, ?_, ?_⟩
  · show readBytes (writeBytes _ _ _ _) _ _ = S0
    rw [readBytes_writeBytes_same, ← hS]
    exact readBytes_mod _ _ _
  · show readBytes (writeBytes _ _ _ _) _ _ = S0
    rw [readBytes_writeBytes_disjoint, ← hS]
    · rfl
    · unfold fieldsDisjoint at hdisj
      omega
  · simp [hkt]
  · simp [hek, het]

/-- Witness of C1 on the 64-bit sample layout: cookie 5 and segment state 9 before Push. -/
theorem Push_postcondition_witness :
    cookie sampleLayout PointerSize.k64 (sampleState.regs ⟨0⟩)
      (run (emittedBy (fun x => x.PushLocalReferenceFrame sampleLayout ⟨0⟩ ⟨1⟩ ⟨2⟩)
        (construct PointerSize.k64 Backend.X86_64JNIMacroAssembler ⟨0⟩)) sampleState) = 9 ∧
    segmentState sampleLayout PointerSize.k64 (sampleState.regs ⟨0⟩)
      (run (emittedBy (fun x => x.PushLocalReferenceFrame sampleLayout ⟨0⟩ ⟨1⟩ ⟨2⟩)
        (construct PointerSize.k64 Backend.X86_64JNIMacroAssembler ⟨0⟩)) sampleState) = 9 ∧
    (run (emittedBy (fun x => x.PushLocalReferenceFrame sampleLayout ⟨0⟩ ⟨1⟩ ⟨2⟩)
        (construct PointerSize.k64 Backend.X86_64JNIMacroAssembler ⟨0⟩)) sampleState).regs
      ⟨1⟩ = 5 ∧
    (run (emittedBy (fun x => x.PushLocalReferenceFrame sampleLayout ⟨0⟩ ⟨1⟩ ⟨2⟩)
        (construct PointerSize.k64 Backend.X86_64JNIMacroAssembler ⟨0⟩)) sampleState).regs
      ⟨0⟩ = sampleState.regs ⟨0⟩ :=
  Push_postcondition sampleLayout PointerSize.k64 _ ⟨0⟩ ⟨1⟩ ⟨2⟩ sampleState 5 9
    (by decide) (by decide) (by decide) (by decide) (by decide) (by decide)

/-- C2 (Push/Pop round trip): for either pointer width, with the three registers pairwise
distinct and the two fields not overlapping, the code emitted by `PushLocalReferenceFrame`
immediately followed by `PopLocalReferenceFrame` with the same registers leaves the segment
state equal to its initial value `S0` and the cookie equal to its initial value `C0`. -/
theorem Push_Pop_round_trip (env : JNIEnvExt) (w : PointerSize) (a : JNIMacroAssembler w)
    (jni_env_reg saved_cookie_reg temp_reg : ManagedRegister) (s : MachineState) (C0 S0 : Nat)
    (hek : jni_env_reg ≠ saved_cookie_reg) (het : jni_env_reg ≠ temp_reg)
    (hkt : saved_cookie_reg ≠ temp_reg) (_hdisj : fieldsDisjoint env w)
    (hC : cookie env w (s.regs jni_env_reg) s = C0)
    (hS : segmentState env w (s.regs jni_env_reg) s = S0) :
    segmentState env w (s.regs jni_env_reg)
      (run (emittedBy (fun x =>
        (x.PushLocalReferenceFrame env jni_env_reg saved_cookie_reg temp_reg
          ).PopLocalReferenceFrame env jni_env_reg saved_cookie_reg temp_reg) a) s) = S0 ∧
    cookie env w (s.regs jni_env_reg)
      (run (emittedBy (fun x =>
        (x.PushLocalReferenceFrame env jni_env_reg saved_cookie_reg temp_reg
          ).PopLocalReferenceFrame env jni_env_reg saved_cookie_reg temp_reg) a) s) = C0 := by
  rw [emittedBy_Push_Pop, run_append]
  have h := (run_Push_Pop env a a jni_env_reg saved_cookie_reg temp_reg s hek het hkt).1
  constructor
  · rw [← hS]
    exact readBytes_congr_all _ _ h _ _
  · rw [← hC]
    exact readBytes_congr_all _ _ h _ _

/-- Witness of C2 on the 64-bit sample layout: cookie 5 and segment state 9 are restored. -/
theorem Push_Pop_round_trip_witness :
    segmentState sampleLayout PointerSize.k64 (sampleState.regs ⟨0⟩)
      (run (emittedBy (fun x =>
        (x.PushLocalReferenceFrame sampleLayout ⟨0⟩ ⟨1⟩ ⟨2⟩
          ).PopLocalReferenceFrame sampleLayout ⟨0⟩ ⟨1⟩ ⟨2⟩)
        (construct PointerSize.k64 Backend.Arm64JNIMacroAssembler ⟨0⟩)) sampleState) = 9 ∧
    cookie sampleLayout PointerSize.k64 (sampleState.regs ⟨0⟩)
      (run (emittedBy (fun x =>
        (x.PushLocalReferenceFrame sampleLayout ⟨0⟩ ⟨1⟩ ⟨2⟩
          ).PopLocalReferenceFrame sampleLayout ⟨0⟩ ⟨1⟩ ⟨2⟩)
        (construct PointerSize.k64 Backend.Arm64JNIMacroAssembler ⟨0⟩)) sampleState) = 5 :=
  Push_Pop_round_trip sampleLayout PointerSize.k64 _ ⟨0⟩ ⟨1⟩ ⟨2⟩ sampleState 5 9
    (by decide) (by decide) (by decide) (by decide) (by decide) (by decide)

/-- C4 (nested round trip): for either pointer width, the code emitted by
`Push(env, k1, t); Push(env, k2, t); Pop(env, k2, t); Pop(env, k1, t)` with `env`, `k1`, `k2`,
`t` pairwise distinct ends with the cookie and the segment state equal to their initial values
`C0` and `S0`. -/
theorem nested_round_trip (env : JNIEnvExt) (w : PointerSize) (a : JNIMacroAssembler w)
    (e k1 k2 t : ManagedRegister) (s : MachineState) (C0 S0 : Nat)
    (hek1 : e ≠ k1) (hek2 : e ≠ k2) (het : e ≠ t) (hk12 : k1 ≠ k2) (hk1t : k1 ≠ t)
    (hk2t : k2 ≠ t)
    (hC : cookie env w (s.regs e) s = C0) (hS : segmentState env w (s.regs e) s = S0) :
    cookie env w (s.regs e)
      (run (emittedBy (fun x =>
        (((x.PushLocalReferenceFrame env e k1 t).PushLocalReferenceFrame env e k2 t
          ).PopLocalReferenceFrame env e k2 t).PopLocalReferenceFrame env e k1 t) a) s) = C0 ∧
    segmentState env w (s.regs e)
      (run (emittedBy (fun x =>
        (((x.PushLocalReferenceFrame env e k1 t).PushLocalReferenceFrame env e k2 t
          ).PopLocalReferenceFrame env e k2 t).PopLocalReferenceFrame env e k1 t) a) s) = S0 := by
  have hcode : emittedBy (fun x =>
        (((x.PushLocalReferenceFrame env e k1 t).PushLocalReferenceFrame env e k2 t
          ).PopLocalReferenceFrame env e k2 t).PopLocalReferenceFrame env e k1 t) a
      = emittedBy (fun x => x.PushLocalReferenceFrame env e k1 t) a ++
        (emittedBy (fun x => x.PushLocalReferenceFrame env e k2 t) a ++
        (emittedBy (fun x => x.PopLocalReferenceFrame env e k2 t) a ++
         emittedBy (fun x => x.PopLocalReferenceFrame env e k1 t) a)) := by
    simp [emittedBy, emitted_Push, emitted_Pop]
  rw [hcode, run_append, run_append, run_append]
  have hs1 := run_Push env a e k1 t s hek1 het
  obtain ⟨hm3, hr3⟩ := run_Push_Pop env a a e k2 t
    (run (emittedBy (fun x => x.PushLocalReferenceFrame env e k1 t) a) s) hek2 het hk2t
  generalize run (emittedBy (fun x => x.PopLocalReferenceFrame env e k2 t) a)
    (run (emittedBy (fun x => x.PushLocalReferenceFrame env e k2 t) a)
      (run (emittedBy (fun x => x.PushLocalReferenceFrame env e k1 t) a) s)) = s3 at hm3 hr3 ⊢
  rw [hs1] at hm3 hr3
  have he3 : s3.regs e = s.regs e := by
    rw [hr3]; simp [hek1, hek2, het]
  have hk3 : s3.regs k1 = cookie env w (s.regs e) s := by
    rw [hr3]; simp [hk12, hk1t]
  have hfin := (run_Pop_restores env a e k1 t s3 s.mem het hk1t
    (by rw [he3]; intro x; rw [hm3 x]; rfl) (by rw [he3, hk3]; rfl)).1
  constructor
  · rw [← hC]
    exact readBytes_congr_all _ _ hfin _ _
  · rw [← hS]
    exact readBytes_congr_all _ _ hfin _ _

/-- Witness of C4 on the 32-bit sample layout, with cookie 3 at offset 12 and segment state 8
at offset 24 of a structure at address 0. -/
theorem nested_round_trip_witness :
    cookie sampleLayout PointerSize.k32 0
      (run (emittedBy (fun x =>
        (((x.PushLocalReferenceFrame sampleLayout ⟨0⟩ ⟨1⟩ ⟨3⟩).PushLocalReferenceFrame
          sampleLayout ⟨0⟩ ⟨2⟩ ⟨3⟩).PopLocalReferenceFrame sampleLayout ⟨0⟩ ⟨2⟩ ⟨3⟩
          ).PopLocalReferenceFrame sampleLayout ⟨0⟩ ⟨1⟩ ⟨3⟩)
        (construct PointerSize.k32 Backend.X86JNIMacroAssembler ⟨0⟩))
        { regs := fun _ => 0, sp := 0, mem := fun a => if a = 12 then 3 else
            if a = 24 then 8 else 0 }) = 3 ∧
    segmentState sampleLayout PointerSize.k32 0
      (run (emittedBy (fun x =>
        (((x.PushLocalReferenceFrame sampleLayout ⟨0⟩ ⟨1⟩ ⟨3⟩).PushLocalReferenceFrame
          sampleLayout ⟨0⟩ ⟨2⟩ ⟨3⟩).PopLocalReferenceFrame sampleLayout ⟨0⟩ ⟨2⟩ ⟨3⟩
          ).PopLocalReferenceFrame sampleLayout ⟨0⟩ ⟨1⟩ ⟨3⟩)
        (construct PointerSize.k32 Backend.X86JNIMacroAssembler ⟨0⟩))
        { regs := fun _ => 0, sp := 0, mem := fun a => if a = 12 then 3 else
            if a = 24 then 8 else 0 }) = 8 :=
  nested_round_trip sampleLayout PointerSize.k32 _ ⟨0⟩ ⟨1⟩ ⟨2⟩ ⟨3⟩
    { regs := fun _ => 0, sp := 0, mem := fun a => if a = 12 then 3 else
        if a = 24 then 8 else 0 } 3 8
    (by decide) (by decide) (by decide) (by decide) (by decide) (by decide)
    (by decide) (by decide)

/-! ## Theorems: end-to-end scenario -/

/-- C10 (end-to-end scenario): for a 64-bit assembler and pairwise distinct registers
`R0..R4`, in a memory image where `R0` points at the environment structure with cookie `C0`
and segment state `S0`, and the 4-byte location at `R4 + 0x10` holds `V` and overlaps neither
field, the code emitted by `Push(R0, R1, R2); LoadGcRootWithoutReadBarrier(R3, R4, 0x10);
Pop(R0, R1, R2)` leaves `R3 = V`, segment state `S0` and cookie `C0`. -/
theorem end_to_end_scenario (env : JNIEnvExt) (a : JNIMacroAssembler PointerSize.k64)
    (R0 R1 R2 R3 R4 : ManagedRegister) (s : MachineState) (C0 S0 V : Nat)
    (hd : [R0, R1, R2, R3, R4].Nodup)
    (hC : cookie env PointerSize.k64 (s.regs R0) s = C0)
    (hS : segmentState env PointerSize.k64 (s.regs R0) s = S0)
    (hV : readBytes s.mem (s.regs R4 + 0x10) 4 = V)
    (hVc : rangesDisjoint (s.regs R4 + 0x10) 4
      (s.regs R0 + (env.LocalRefCookieOffset PointerSize.k64).val) env.kLRTSegmentStateSize)
    (_hVs : rangesDisjoint (s.regs R4 + 0x10) 4
      (s.regs R0 + (env.SegmentStateOffset PointerSize.k64).val) env.kLRTSegmentStateSize) :
    (run (emittedBy (fun x =>
        ((x.PushLocalReferenceFrame env R0 R1 R2).LoadGcRootWithoutReadBarrier R3 R4 ⟨0x10⟩
          ).PopLocalReferenceFrame env R0 R1 R2) a) s).regs R3 = V ∧
    segmentState env PointerSize.k64 (s.regs R0)
      (run (emittedBy (fun x =>
        ((x.PushLocalReferenceFrame env R0 R1 R2).LoadGcRootWithoutReadBarrier R3 R4 ⟨0x10⟩
          ).PopLocalReferenceFrame env R0 R1 R2) a) s) = S0 ∧
    cookie env PointerSize.k64 (s.regs R0)
      (run (emittedBy (fun x =>
        ((x.PushLocalReferenceFrame env R0 R1 R2).LoadGcRootWithoutReadBarrier R3 R4 ⟨0x10⟩
          ).PopLocalReferenceFrame env R0 R1 R2) a) s) = C0 := by
  have hcode : emittedBy (fun x =>
        ((x.PushLocalReferenceFrame env R0 R1 R2).LoadGcRootWithoutReadBarrier R3 R4 ⟨0x10⟩
          ).PopLocalReferenceFrame env R0 R1 R2) a
      = emittedBy (fun x => x.PushLocalReferenceFrame env R0 R1 R2) a ++
        ([Primitive.Load R3 R4 ⟨0x10⟩ 4] ++
         emittedBy (fun x => x.PopLocalReferenceFrame env R0 R1 R2) a) := by
    simp [emittedBy, emitted_Push, emitted_Pop, emitted_LoadGcRoot]
  simp only [List.nodup_cons, List.mem_cons, List.mem_singleton, not_or, List.not_mem_nil,
    not_false_eq_true, List.nodup_nil, and_true] at hd
  obtain ⟨⟨h01, h02, h03, -⟩, ⟨h12, h13, h14⟩, ⟨h23, h24⟩, -⟩ := hd
  unfold rangesDisjoint at hVc
  rw [hcode, run_append, run_append, run_Push env a R0 R1 R2 s h01 h02]
  have hload : ∃ s2, run [Primitive.Load R3 R4 ⟨0x10⟩ 4]
      { regs := fun r => if r = R2 then segmentState env PointerSize.k64 (s.regs R0) s
          else if r = R1 then cookie env PointerSize.k64 (s.regs R0) s else s.regs r,
        sp := s.sp,
        mem := writeBytes s.mem (s.regs R0 + (env.LocalRefCookieOffset PointerSize.k64).val)
          (segmentState env PointerSize.k64 (s.regs R0) s) env.kLRTSegmentStateSize } = s2 ∧
      s2.regs R0 = s.regs R0 ∧ s2.regs R1 = cookie env PointerSize.k64 (s.regs R0) s ∧
      s2.regs R3 = V ∧
      s2.mem = writeBytes s.mem (s.regs R0 + (env.LocalRefCookieOffset PointerSize.k64).val)
          (segmentState env PointerSize.k64 (s.regs R0) s) env.kLRTSegmentStateSize := by
    refine ⟨_, rfl, ?_, ?_, ?_, ?_⟩
    · simp [run, step, h01, h02, h03]
    · simp [run, step, h12, h13]
    · simp only [run, List.foldl, step, Ne.symm h24, Ne.symm h14, if_false, if_true]
      rw [readBytes_writeBytes_disjoint _ _ _ _ _ _ (by omega), hV]
    · simp [run, step]
  obtain ⟨s2, h2, hr0, hr1, hr3, hm⟩ := hload
  rw [h2]
  obtain ⟨hmem, hregs⟩ := run_Pop_restores env a R0 R1 R2 s2 s.mem h02 h12
    (by rw [hr0, hm]; intro x; rfl) (by rw [hr0, hr1]; rfl)
  refine ⟨?_, ?_, ?_⟩
  · rw [hregs]
    simp [Ne.symm h23, hr3]
  · rw [← hS]
    exact readBytes_congr_all _ _ hmem _ _
  · rw [← hC]
    exact readBytes_congr_all _ _ hmem _ _

/-- Witness of C10 on the sample image: cookie 5, segment state 9, and the value 7 at
`R4 + 0x10`. -/
theorem end_to_end_scenario_witness :
    (run (emittedBy (fun x =>
        ((x.PushLocalReferenceFrame sampleLayout ⟨0⟩ ⟨1⟩ ⟨2⟩).LoadGcRootWithoutReadBarrier
          ⟨3⟩ ⟨4⟩ ⟨0x10⟩).PopLocalReferenceFrame sampleLayout ⟨0⟩ ⟨1⟩ ⟨2⟩)
        (construct PointerSize.k64 Backend.X86_64JNIMacroAssembler ⟨0⟩)) sampleState).regs
      ⟨3⟩ = 7 ∧
    segmentState sampleLayout PointerSize.k64 (sampleState.regs ⟨0⟩)
      (run (emittedBy (fun x =>
        ((x.PushLocalReferenceFrame sampleLayout ⟨0⟩ ⟨1⟩ ⟨2⟩).LoadGcRootWithoutReadBarrier
          ⟨3⟩ ⟨4⟩ ⟨0x10⟩).PopLocalReferenceFrame sampleLayout ⟨0⟩ ⟨1⟩ ⟨2⟩)
        (construct PointerSize.k64 Backend.X86_64JNIMacroAssembler ⟨0⟩)) sampleState) = 9 ∧
    cookie sampleLayout PointerSize.k64 (sampleState.regs ⟨0⟩)
      (run (emittedBy (fun x =>
        ((x.PushLocalReferenceFrame sampleLayout ⟨0⟩ ⟨1⟩ ⟨2⟩).LoadGcRootWithoutReadBarrier
          ⟨3⟩ ⟨4⟩ ⟨0x10⟩).PopLocalReferenceFrame sampleLayout ⟨0⟩ ⟨1⟩ ⟨2⟩)
        (construct PointerSize.k64 Backend.X86_64JNIMacroAssembler ⟨0⟩)) sampleState) = 5 :=
  end_to_end_scenario sampleLayout _ ⟨0⟩ ⟨1⟩ ⟨2⟩ ⟨3⟩ ⟨4⟩ sampleState 5 9 7
    (by decide) (by decide) (by decide) (by decide) (by decide) (by decide)

/-! ## Theorems: the emitted sequences -/

/-- C11 (emitted sequence of Push): for pointer width `w` and every three registers,
`PushLocalReferenceFrame` emits exactly three primitives, in this order and nothing else:
`Load(saved_cookie_reg, jni_env_reg, cookieOffset(w), sz)`,
`Load(temp_reg, jni_env_reg, segmentStateOffset(w), sz)`,
`Store(jni_env_reg, cookieOffset(w), temp_reg, sz)`, with `sz` the size of the segment-state
record; the rest of the assembler is unchanged. -/
theorem Push_emitted_sequence (env : JNIEnvExt) (w : PointerSize) (a : JNIMacroAssembler w)
    (jni_env_reg saved_cookie_reg temp_reg : ManagedRegister) :
    emittedBy (fun x =>
        x.PushLocalReferenceFrame env jni_env_reg saved_cookie_reg temp_reg) a =
      [Primitive.Load saved_cookie_reg jni_env_reg (env.LocalRefCookieOffset w)
         env.kLRTSegmentStateSize,
       Primitive.Load temp_reg jni_env_reg (env.SegmentStateOffset w)
         env.kLRTSegmentStateSize,
       Primitive.Store jni_env_reg (env.LocalRefCookieOffset w) temp_reg
         env.kLRTSegmentStateSize] ∧
    a.PushLocalReferenceFrame env jni_env_reg saved_cookie_reg temp_reg =
      { a with emitted := a.emitted ++
        [Primitive.Load saved_cookie_reg jni_env_reg (env.LocalRefCookieOffset w)
           env.kLRTSegmentStateSize,
         Primitive.Load temp_reg jni_env_reg (env.SegmentStateOffset w)
           env.kLRTSegmentStateSize,
         Primitive.Store jni_env_reg (env.LocalRefCookieOffset w) temp_reg
           env.kLRTSegmentStateSize] } := by
  constructor
  · exact emittedBy_Push env a _ _ _
  · simp [PushLocalReferenceFrame, JNIMacroAssembler.Load, JNIMacroAssembler.Store]

/-- C12 (emitted sequence of Pop): for pointer width `w` and every three registers,
`PopLocalReferenceFrame` emits exactly three primitives, in this order and nothing else:
`Load(temp_reg, jni_env_reg, cookieOffset(w), sz)`,
`Store(jni_env_reg, segmentStateOffset(w), temp_reg, sz)`,
`Store(jni_env_reg, cookieOffset(w), saved_cookie_reg, sz)`; so the segment-state field is
written from the old cookie before the cookie field is overwritten with the saved value. -/
theorem Pop_emitted_sequence (env : JNIEnvExt) (w : PointerSize) (a : JNIMacroAssembler w)
    (jni_env_reg saved_cookie_reg temp_reg : ManagedRegister) :
    emittedBy (fun x =>
        x.PopLocalReferenceFrame env jni_env_reg saved_cookie_reg temp_reg) a =
      [Primitive.Load temp_reg jni_env_reg (env.LocalRefCookieOffset w)
         env.kLRTSegmentStateSize,
       Primitive.Store jni_env_reg (env.SegmentStateOffset w) temp_reg
         env.kLRTSegmentStateSize,
       Primitive.Store jni_env_reg (env.LocalRefCookieOffset w) saved_cookie_reg
         env.kLRTSegmentStateSize] ∧
    a.PopLocalReferenceFrame env jni_env_reg saved_cookie_reg temp_reg =
      { a with emitted := a.emitted ++
        [Primitive.Load temp_reg jni_env_reg (env.LocalRefCookieOffset w)
           env.kLRTSegmentStateSize,
         Primitive.Store jni_env_reg (env.SegmentStateOffset w) temp_reg
           env.kLRTSegmentStateSize,
         Primitive.Store jni_env_reg (env.LocalRefCookieOffset w) saved_cookie_reg
           env.kLRTSegmentStateSize] } := by
  constructor
  · exact emittedBy_Pop env a _ _ _
  · simp [PopLocalReferenceFrame, JNIMacroAssembler.Load, JNIMacroAssembler.Store]

/-- C13 (width affects only the offsets): every primitive emitted by Push and Pop, for either
width, carries the size of the segment-state record, which does not depend on the width; the
32-bit instantiation run with the 64-bit offsets in place of its own emits the 64-bit
sequence, and when the two 32-bit offsets differ the 64-bit sequence is the 32-bit one with
each offset replaced by its 64-bit counterpart; Push and Pop of one width use the same cookie
offset and the same segment-state offset. -/
theorem width_affects_only_offsets (env : JNIEnvExt) (a32 : JNIMacroAssembler PointerSize.k32)
    (a64 : JNIMacroAssembler PointerSize.k64) (e k t : ManagedRegister) :
    (∀ (w : PointerSize) (a : JNIMacroAssembler w) (p : Primitive),
      p ∈ emittedBy (fun x => x.PushLocalReferenceFrame env e k t) a ++
          emittedBy (fun x => x.PopLocalReferenceFrame env e k t) a →
      p.size = env.kLRTSegmentStateSize) ∧
    emittedBy (fun x =>
        x.PushLocalReferenceFrame (env.withOffsetsOf PointerSize.k64) e k t) a32
      = emittedBy (fun x => x.PushLocalReferenceFrame env e k t) a64 ∧
    emittedBy (fun x =>
        x.PopLocalReferenceFrame (env.withOffsetsOf PointerSize.k64) e k t) a32
      = emittedBy (fun x => x.PopLocalReferenceFrame env e k t) a64 ∧
    (env.LocalRefCookieOffset PointerSize.k32 ≠ env.SegmentStateOffset PointerSize.k32 →
      (emittedBy (fun x => x.PushLocalReferenceFrame env e k t) a32).map
          (Primitive.replaceOffset (offsets32To64 env))
        = emittedBy (fun x => x.PushLocalReferenceFrame env e k t) a64 ∧
      (emittedBy (fun x => x.PopLocalReferenceFrame env e k t) a32).map
          (Primitive.replaceOffset (offsets32To64 env))
        = emittedBy (fun x => x.PopLocalReferenceFrame env e k t) a64) ∧
    (∀ (w : PointerSize) (a : JNIMacroAssembler w),
      (emittedBy (fun x => x.PushLocalReferenceFrame env e k t) a).filterMap
          Primitive.memberOffset
        = [env.LocalRefCookieOffset w, env.SegmentStateOffset w, env.LocalRefCookieOffset w] ∧
      (emittedBy (fun x => x.PopLocalReferenceFrame env e k t) a).filterMap
          Primitive.memberOffset
        = [env.LocalRefCookieOffset w, env.SegmentStateOffset w,
            env.LocalRefCookieOffset w]) := by
  refine ⟨?_, ?_, ?_, ?_, ?_⟩
  · intro w a p hp
    rw [emittedBy_Push, emittedBy_Pop] at hp
    simp only [List.cons_append, List.nil_append, List.mem_cons, List.mem_singleton,
      List.not_mem_nil, or_false] at hp
    rcases hp with h | h | h | h | h | h <;> subst h <;> rfl
  · rw [emittedBy_Push, emittedBy_Push]
    rfl
  · rw [emittedBy_Pop, emittedBy_Pop]
    rfl
  · intro hne
    rw [emittedBy_Push, emittedBy_Push, emittedBy_Pop, emittedBy_Pop]
    have hne2 : env.SegmentStateOffset PointerSize.k32 ≠
        env.LocalRefCookieOffset PointerSize.k32 := fun h => hne h.symm
    simp [Primitive.replaceOffset, offsets32To64, hne2]
  · intro w a
    rw [emittedBy_Push, emittedBy_Pop]
    simp [Primitive.memberOffset]

/-- Witness of C13 on the sample layout, whose 32-bit offsets 12 and 24 differ: replacing
them by 24 and 44 turns the 32-bit Push sequence into the 64-bit one. -/
theorem width_affects_only_offsets_witness :
    (emittedBy (fun x => x.PushLocalReferenceFrame sampleLayout ⟨0⟩ ⟨1⟩ ⟨2⟩)
        (construct PointerSize.k32 Backend.X86JNIMacroAssembler ⟨0⟩)).map
        (Primitive.replaceOffset (offsets32To64 sampleLayout))
      = emittedBy (fun x => x.PushLocalReferenceFrame sampleLayout ⟨0⟩ ⟨1⟩ ⟨2⟩)
          (construct PointerSize.k64 Backend.X86_64JNIMacroAssembler ⟨0⟩) ∧
    (emittedBy (fun x => x.PopLocalReferenceFrame sampleLayout ⟨0⟩ ⟨1⟩ ⟨2⟩)
        (construct PointerSize.k32 Backend.X86JNIMacroAssembler ⟨0⟩)).map
        (Primitive.replaceOffset (offsets32To64 sampleLayout))
      = emittedBy (fun x => x.PopLocalReferenceFrame sampleLayout ⟨0⟩ ⟨1⟩ ⟨2⟩)
          (construct PointerSize.k64 Backend.X86_64JNIMacroAssembler ⟨0⟩) :=
  (width_affects_only_offsets sampleLayout _ _ ⟨0⟩ ⟨1⟩ ⟨2⟩).2.2.2.1 (by decide)

/-! ## Theorems: the feature-flags parameter -/

/-- C14 (the feature-flags parameter is inert): for either factory, every build, allocator and
instruction set, and any two values of `instruction_set_features` (null included), `Create`
has the same outcome: both calls fail with the same diagnostic or both return the same
assembler. -/
theorem Create_features_inert (cfg : BuildConfig) (w : PointerSize) (allocator : ArenaAllocator)
    (isa : InstructionSet) (f1 f2 : Option InstructionSetFeatures) :
    Create cfg w allocator isa f1 = Create cfg w allocator isa f2 ∧
    ((∃ log, Create cfg w allocator isa f1 = Except.error log ∧
        Create cfg w allocator isa f2 = Except.error log) ∨
     (∃ asm, Create cfg w allocator isa f1 = Except.ok asm ∧
        Create cfg w allocator isa f2 = Except.ok asm)) := by
  refine ⟨rfl, ?_⟩
  cases h : Create cfg w allocator isa f1 with
  | error log => exact Or.inl ⟨log, rfl, h⟩
  | ok asm => exact Or.inr ⟨asm, rfl, h⟩

/-! ## Theorems: nesting of any depth -/

/-- C15 (arbitrary-depth nesting), as amended: for either pointer width, with `jni_env_reg`
and `temp_reg` distinct and the two fields not overlapping, for every well-bracketed scenario
of Push, Pop and changes of the segment-state field, in which the open scopes use pairwise
different saved-cookie registers (all different from `jni_env_reg` and `temp_reg`) and each
Pop uses the register of its matching Push: after the whole scenario the cookie field equals
its initial value `C0`, after each Pop the segment-state field equals the value it had when
the matching Push ran (one check per Pop), and, when the segment state is changed only while
a scope is open, the segment-state field ends at its initial value `S0`. -/
theorem nested_scopes_any_depth (env : JNIEnvExt) (w : PointerSize) (a : JNIMacroAssembler w)
    (jni_env_reg temp_reg : ManagedRegister) (ops : List FrameOp) (s : MachineState)
    (C0 S0 : Nat) (topLevelChanges : Bool)
    (het : jni_env_reg ≠ temp_reg) (hdisj : fieldsDisjoint env w)
    (hwb : wellBracketed topLevelChanges jni_env_reg temp_reg [] ops = true)
    (hC : cookie env w (s.regs jni_env_reg) s = C0)
    (hS : segmentState env w (s.regs jni_env_reg) s = S0) :
    cookie env w (s.regs jni_env_reg)
      (runFrameOps env w a jni_env_reg temp_reg (s.regs jni_env_reg) ops
        { state := s, openScopes := [], popChecks := [] }).state = C0 ∧
    (topLevelChanges = false →
      segmentState env w (s.regs jni_env_reg)
        (runFrameOps env w a jni_env_reg temp_reg (s.regs jni_env_reg) ops
          { state := s, openScopes := [], popChecks := [] }).state = S0) ∧
    (∀ c ∈ (runFrameOps env w a jni_env_reg temp_reg (s.regs jni_env_reg) ops
        { state := s, openScopes := [], popChecks := [] }).popChecks, c.1 = c.2) ∧
    (runFrameOps env w a jni_env_reg temp_reg (s.regs jni_env_reg) ops
        { state := s, openScopes := [], popChecks := [] }).popChecks.length
      = countPops ops ∧
    (runFrameOps env w a jni_env_reg temp_reg (s.regs jni_env_reg) ops
        { state := s, openScopes := [], popChecks := [] }).openScopes = [] := by
  have hinit : FrameInv env w jni_env_reg temp_reg (s.regs jni_env_reg) C0 S0 topLevelChanges
      { state := s, openScopes := [], popChecks := [] } := by
    refine ⟨rfl, ?_, hC, ?_, fun _ => hS⟩
    · intro p hp; exact absurd hp (List.not_mem_nil _)
    · intro c hc; exact absurd hc (List.not_mem_nil _)
  obtain ⟨⟨_, _, hch, hpc, hbase⟩, hopen, hlen⟩ :=
    runFrameOps_inv env w a jni_env_reg temp_reg (s.regs jni_env_reg) C0 S0 topLevelChanges
      het hdisj ops _ hinit hwb
  rw [hopen] at hch hbase
  refine ⟨hch, hbase, hpc, ?_, hopen⟩
  rw [hlen]
  simp

/-- Witness of C15 as amended, on the 64-bit sample image: two nested scopes with the segment
state changed to 77, 88 and 99 inside them; the cookie ends at 5 and the segment state at 9,
and the two checks compare 77 with 77 (inner Pop) and 9 with 9 (outer Pop). -/
theorem nested_scopes_any_depth_witness :
    cookie sampleLayout PointerSize.k64 (sampleState.regs ⟨0⟩)
      (runFrameOps sampleLayout PointerSize.k64
        (construct PointerSize.k64 Backend.Arm64JNIMacroAssembler ⟨0⟩) ⟨0⟩ ⟨2⟩
        (sampleState.regs ⟨0⟩)
        [FrameOp.push ⟨1⟩, FrameOp.setSegment 77, FrameOp.push ⟨3⟩, FrameOp.setSegment 88,
          FrameOp.pop ⟨3⟩, FrameOp.setSegment 99, FrameOp.pop ⟨1⟩]
        { state := sampleState, openScopes := [], popChecks := [] }).state = 5 ∧
    segmentState sampleLayout PointerSize.k64 (sampleState.regs ⟨0⟩)
      (runFrameOps sampleLayout PointerSize.k64
        (construct PointerSize.k64 Backend.Arm64JNIMacroAssembler ⟨0⟩) ⟨0⟩ ⟨2⟩
        (sampleState.regs ⟨0⟩)
        [FrameOp.push ⟨1⟩, FrameOp.setSegment 77, FrameOp.push ⟨3⟩, FrameOp.setSegment 88,
          FrameOp.pop ⟨3⟩, FrameOp.setSegment 99, FrameOp.pop ⟨1⟩]
        { state := sampleState, openScopes := [], popChecks := [] }).state = 9 ∧
    (runFrameOps sampleLayout PointerSize.k64
        (construct PointerSize.k64 Backend.Arm64JNIMacroAssembler ⟨0⟩) ⟨0⟩ ⟨2⟩
        (sampleState.regs ⟨0⟩)
        [FrameOp.push ⟨1⟩, FrameOp.setSegment 77, FrameOp.push ⟨3⟩, FrameOp.setSegment 88,
          FrameOp.pop ⟨3⟩, FrameOp.setSegment 99, FrameOp.pop ⟨1⟩]
        { state := sampleState, openScopes := [], popChecks := [] }).popChecks
      = [(9, 9), (77, 77)] :=
  ⟨(nested_scopes_any_depth sampleLayout PointerSize.k64 _ ⟨0⟩ ⟨2⟩ _ sampleState 5 9 false
      (by decide) (by decide) (by decide) (by decide) (by decide)).1,
   (nested_scopes_any_depth sampleLayout PointerSize.k64 _ ⟨0⟩ ⟨2⟩ _ sampleState 5 9 false
      (by decide) (by decide) (by decide) (by decide) (by decide)).2.1 rfl,
   by decide⟩

/-- Counterexample to C15 as stated, on the 64-bit sample image (cookie 5, segment state 9).
First, a well-bracketed scenario of two scopes in a row with the segment state changed to 7
between them ends with segment state 7, not 9. Second, with `jni_env_reg` and `temp_reg` the
same register (the saved-cookie register differs from both), a scope inside which the segment
state is changed to 77 ends with segment state 77: the Pop does not bring back 9. -/
theorem nested_scopes_counterexample :
    (wellBracketed true ⟨0⟩ ⟨2⟩ []
        [FrameOp.push ⟨1⟩, FrameOp.pop ⟨1⟩, FrameOp.setSegment 7, FrameOp.push ⟨1⟩,
          FrameOp.pop ⟨1⟩] = true ∧
      segmentState sampleLayout PointerSize.k64 (sampleState.regs ⟨0⟩) sampleState = 9 ∧
      segmentState sampleLayout PointerSize.k64 (sampleState.regs ⟨0⟩)
        (runFrameOps sampleLayout PointerSize.k64
          (construct PointerSize.k64 Backend.Arm64JNIMacroAssembler ⟨0⟩) ⟨0⟩ ⟨2⟩
          (sampleState.regs ⟨0⟩)
          [FrameOp.push ⟨1⟩, FrameOp.pop ⟨1⟩, FrameOp.setSegment 7, FrameOp.push ⟨1⟩,
            FrameOp.pop ⟨1⟩]
          { state := sampleState, openScopes := [], popChecks := [] }).state = 7) ∧
    (wellBracketed false ⟨0⟩ ⟨0⟩ []
        [FrameOp.push ⟨1⟩, FrameOp.setSegment 77, FrameOp.pop ⟨1⟩] = true ∧
      segmentState sampleLayout PointerSize.k64 (sampleState.regs ⟨0⟩)
        (runFrameOps sampleLayout PointerSize.k64
          (construct PointerSize.k64 Backend.Arm64JNIMacroAssembler ⟨0⟩) ⟨0⟩ ⟨0⟩
          (sampleState.regs ⟨0⟩)
          [FrameOp.push ⟨1⟩, FrameOp.setSegment 77, FrameOp.pop ⟨1⟩]
          { state := sampleState, openScopes := [], popChecks := [] }).state = 77) := by
  decide

/-! ## Theorems: misuse of the role registers -/

/-- C16 (reusing the saved-cookie register across nested scopes loses the outer cookie): for
`Push(env, k, t); Push(env, k, t); Pop(env, k, t); Pop(env, k, t)` with `env`, `k`, `t`
pairwise distinct (and the two fields of the structure not overlapping), the final state has
cookie `S0` and segment state `S0` for every initial cookie `C0` and segment state `S0`; so
whenever `C0` differs from `S0` the final cookie differs from the initial one. -/
theorem reused_cookie_register_loses_cookie (env : JNIEnvExt) (w : PointerSize)
    (a : JNIMacroAssembler w) (e k t : ManagedRegister) (s : MachineState) (C0 S0 : Nat)
    (hek : e ≠ k) (het : e ≠ t) (hkt : k ≠ t) (hdisj : fieldsDisjoint env w)
    (hC : cookie env w (s.regs e) s = C0) (hS : segmentState env w (s.regs e) s = S0) :
    cookie env w (s.regs e)
      (run (emittedBy (fun x =>
        (((x.PushLocalReferenceFrame env e k t).PushLocalReferenceFrame env e k t
          ).PopLocalReferenceFrame env e k t).PopLocalReferenceFrame env e k t) a) s) = S0 ∧
    segmentState env w (s.regs e)
      (run (emittedBy (fun x =>
        (((x.PushLocalReferenceFrame env e k t).PushLocalReferenceFrame env e k t
          ).PopLocalReferenceFrame env e k t).PopLocalReferenceFrame env e k t) a) s) = S0 ∧
    (C0 ≠ S0 →
      cookie env w (s.regs e)
        (run (emittedBy (fun x =>
          (((x.PushLocalReferenceFrame env e k t).PushLocalReferenceFrame env e k t
            ).PopLocalReferenceFrame env e k t).PopLocalReferenceFrame env e k t) a) s)
        ≠ C0) := by
  have hcode : emittedBy (fun x =>
        (((x.PushLocalReferenceFrame env e k t).PushLocalReferenceFrame env e k t
          ).PopLocalReferenceFrame env e k t).PopLocalReferenceFrame env e k t) a
      = emittedBy (fun x => x.PushLocalReferenceFrame env e k t) a ++
        (emittedBy (fun x => x.PushLocalReferenceFrame env e k t) a ++
        (emittedBy (fun x => x.PopLocalReferenceFrame env e k t) a ++
         emittedBy (fun x => x.PopLocalReferenceFrame env e k t) a)) := by
    simp [emittedBy, emitted_Push, emitted_Pop]
  have hS0 : S0 % 256 ^ env.kLRTSegmentStateSize = S0 := by
    rw [← hS]; exact readBytes_mod _ _ _
  rw [hcode, run_append, run_append, run_append]
  obtain ⟨hm3, hr3⟩ := run_Push_Pop env a a e k t
    (run (emittedBy (fun x => x.PushLocalReferenceFrame env e k t) a) s) hek het hkt
  generalize run (emittedBy (fun x => x.PopLocalReferenceFrame env e k t) a)
    (run (emittedBy (fun x => x.PushLocalReferenceFrame env e k t) a)
      (run (emittedBy (fun x => x.PushLocalReferenceFrame env e k t) a) s)) = s3 at hm3 hr3 ⊢
  rw [run_Push env a e k t s hek het, hC, hS] at hm3 hr3
  have he3 : s3.regs e = s.regs e := by
    rw [hr3]; simp [hek, het]
  have hk3 : s3.regs k = S0 := by
    rw [hr3]
    simp only [hkt, hek, het, if_false, if_true, cookie]
    rw [readBytes_writeBytes_same, hS0]
  have hc3 : cookie env w (s.regs e) s3 = S0 := by
    unfold cookie
    rw [readBytes_congr_all _ _ hm3, readBytes_writeBytes_same, hS0]
  unfold fieldsDisjoint at hdisj
  rw [run_Pop env a e k t s3 het, he3, hc3, hk3]
  simp only [hkt, if_false, cookie, segmentState]
  have hfin : readBytes
      (writeBytes
        (writeBytes s3.mem (s.regs e + (env.SegmentStateOffset w).val) S0
          env.kLRTSegmentStateSize)
        (s.regs e + (env.LocalRefCookieOffset w).val) S0 env.kLRTSegmentStateSize)
      (s.regs e + (env.LocalRefCookieOffset w).val) env.kLRTSegmentStateSize = S0 := by
    rw [readBytes_writeBytes_same, hS0]
  refine ⟨hfin, ?_, ?_⟩
  · rw [readBytes_writeBytes_disjoint _ _ _ _ _ _ (by omega), readBytes_writeBytes_same, hS0]
  · intro hne
    rw [hfin]
    exact fun h => hne h.symm

/-- Witness of C16 on the 64-bit sample image: the cookie 5 is lost, both fields end at 9. -/
theorem reused_cookie_register_loses_cookie_witness :
    cookie sampleLayout PointerSize.k64 (sampleState.regs ⟨0⟩)
      (run (emittedBy (fun x =>
        (((x.PushLocalReferenceFrame sampleLayout ⟨0⟩ ⟨1⟩ ⟨2⟩).PushLocalReferenceFrame
          sampleLayout ⟨0⟩ ⟨1⟩ ⟨2⟩).PopLocalReferenceFrame sampleLayout ⟨0⟩ ⟨1⟩ ⟨2⟩
          ).PopLocalReferenceFrame sampleLayout ⟨0⟩ ⟨1⟩ ⟨2⟩)
        (construct PointerSize.k64 Backend.Arm64JNIMacroAssembler ⟨0⟩)) sampleState) ≠ 5 :=
  (reused_cookie_register_loses_cookie sampleLayout PointerSize.k64 _ ⟨0⟩ ⟨1⟩ ⟨2⟩
    sampleState 5 9 (by decide) (by decide) (by decide) (by decide) (by decide)
    (by decide)).2.2 (by decide)

/-- C18 (register aliasing breaks the round trip): when `saved_cookie_reg` and `temp_reg` are
the same register `k`, distinct from `jni_env_reg` (and the two fields of the structure do not
overlap), the register holds `S0` after Push, and Push followed by the matching Pop leaves
cookie `S0` and segment state `S0`; so whenever `C0` differs from `S0` the register does not
hold `C0` after Push and the cookie is not restored to `C0`. -/
theorem aliased_registers_break_round_trip (env : JNIEnvExt) (w : PointerSize)
    (a : JNIMacroAssembler w) (e k : ManagedRegister) (s : MachineState) (C0 S0 : Nat)
    (hek : e ≠ k) (hdisj : fieldsDisjoint env w)
    (hC : cookie env w (s.regs e) s = C0) (hS : segmentState env w (s.regs e) s = S0) :
    (run (emittedBy (fun x => x.PushLocalReferenceFrame env e k k) a) s).regs k = S0 ∧
    cookie env w (s.regs e)
      (run (emittedBy (fun x =>
        (x.PushLocalReferenceFrame env e k k).PopLocalReferenceFrame env e k k) a) s) = S0 ∧
    segmentState env w (s.regs e)
      (run (emittedBy (fun x =>
        (x.PushLocalReferenceFrame env e k k).PopLocalReferenceFrame env e k k) a) s) = S0 ∧
    (C0 ≠ S0 →
      (run (emittedBy (fun x => x.PushLocalReferenceFrame env e k k) a) s).regs k ≠ C0 ∧
      cookie env w (s.regs e)
        (run (emittedBy (fun x =>
          (x.PushLocalReferenceFrame env e k k).PopLocalReferenceFrame env e k k) a) s)
        ≠ C0) := by
  have hS0 : S0 % 256 ^ env.kLRTSegmentStateSize = S0 := by
    rw [← hS]; exact readBytes_mod _ _ _
  unfold fieldsDisjoint at hdisj
  rw [emittedBy_Push_Pop, run_append, run_Push env a e k k s hek hek, hC, hS,
    run_Pop env a e k k _ hek]
  simp only [hek, if_false, if_true, cookie, segmentState]
  have h1 : readBytes
      (writeBytes s.mem (s.regs e + (env.LocalRefCookieOffset w).val) S0
        env.kLRTSegmentStateSize)
      (s.regs e + (env.LocalRefCookieOffset w).val) env.kLRTSegmentStateSize = S0 := by
    rw [readBytes_writeBytes_same, hS0]
  rw [h1]
  refine ⟨trivial, ?_, ?_, ?_⟩
  · rw [readBytes_writeBytes_same, hS0]
  · rw [readBytes_writeBytes_disjoint _ _ _ _ _ _ (by omega), readBytes_writeBytes_same, hS0]
  · intro hne
    rw [readBytes_writeBytes_same, hS0]
    exact ⟨fun h => hne h.symm, fun h => hne h.symm⟩

/-- Witness of C18 on the 64-bit sample image with `saved_cookie_reg = temp_reg`: after Push
the register does not hold the cookie 5, and after Pop the cookie is not 5. -/
theorem aliased_registers_break_round_trip_witness :
    (run (emittedBy (fun x => x.PushLocalReferenceFrame sampleLayout ⟨0⟩ ⟨1⟩ ⟨1⟩)
        (construct PointerSize.k64 Backend.Arm64JNIMacroAssembler ⟨0⟩)) sampleState).regs
      ⟨1⟩ ≠ 5 ∧
    cookie sampleLayout PointerSize.k64 (sampleState.regs ⟨0⟩)
      (run (emittedBy (fun x =>
        (x.PushLocalReferenceFrame sampleLayout ⟨0⟩ ⟨1⟩ ⟨1⟩).PopLocalReferenceFrame
          sampleLayout ⟨0⟩ ⟨1⟩ ⟨1⟩)
        (construct PointerSize.k64 Backend.Arm64JNIMacroAssembler ⟨0⟩)) sampleState) ≠ 5 :=
  (aliased_registers_break_round_trip sampleLayout PointerSize.k64 _ ⟨0⟩ ⟨1⟩ sampleState 5 9
    (by decide) (by decide) (by decide) (by decide)).2.2.2 (by decide)

/-! ## Theorems: frame of Push and Pop -/

/-- C17 (frame of Push and Pop), as amended: with `jni_env_reg` distinct from
`saved_cookie_reg` and `temp_reg`, the code of Push writes no memory outside the cookie field
and no register other than `saved_cookie_reg` and `temp_reg`; the code of Pop writes no memory
outside the cookie and segment-state fields and no register other than `temp_reg`, so
`jni_env_reg` keeps its value, and `saved_cookie_reg` keeps its value when it is not the same
register as `temp_reg`. -/
theorem Push_Pop_frame (env : JNIEnvExt) (w : PointerSize) (a : JNIMacroAssembler w)
    (jni_env_reg saved_cookie_reg temp_reg : ManagedRegister) (s : MachineState)
    (hek : jni_env_reg ≠ saved_cookie_reg) (het : jni_env_reg ≠ temp_reg) :
    ((∀ r, r ≠ saved_cookie_reg → r ≠ temp_reg →
        (run (emittedBy (fun x =>
          x.PushLocalReferenceFrame env jni_env_reg saved_cookie_reg temp_reg) a) s).regs r
          = s.regs r) ∧
      (∀ x, ¬ (s.regs jni_env_reg + (env.LocalRefCookieOffset w).val ≤ x ∧
          x < s.regs jni_env_reg + (env.LocalRefCookieOffset w).val
            + env.kLRTSegmentStateSize) →
        (run (emittedBy (fun x =>
          x.PushLocalReferenceFrame env jni_env_reg saved_cookie_reg temp_reg) a) s).mem x
          = s.mem x) ∧
      (run (emittedBy (fun x =>
          x.PushLocalReferenceFrame env jni_env_reg saved_cookie_reg temp_reg) a) s).sp
        = s.sp) ∧
    ((∀ r, r ≠ temp_reg →
        (run (emittedBy (fun x =>
          x.PopLocalReferenceFrame env jni_env_reg saved_cookie_reg temp_reg) a) s).regs r
          = s.regs r) ∧
      (run (emittedBy (fun x =>
          x.PopLocalReferenceFrame env jni_env_reg saved_cookie_reg temp_reg) a) s).regs
        jni_env_reg = s.regs jni_env_reg ∧
      (saved_cookie_reg ≠ temp_reg →
        (run (emittedBy (fun x =>
          x.PopLocalReferenceFrame env jni_env_reg saved_cookie_reg temp_reg) a) s).regs
          saved_cookie_reg = s.regs saved_cookie_reg) ∧
      (∀ x, ¬ (s.regs jni_env_reg + (env.LocalRefCookieOffset w).val ≤ x ∧
          x < s.regs jni_env_reg + (env.LocalRefCookieOffset w).val
            + env.kLRTSegmentStateSize) →
        ¬ (s.regs jni_env_reg + (env.SegmentStateOffset w).val ≤ x ∧
          x < s.regs jni_env_reg + (env.SegmentStateOffset w).val
            + env.kLRTSegmentStateSize) →
        (run (emittedBy (fun x =>
          x.PopLocalReferenceFrame env jni_env_reg saved_cookie_reg temp_reg) a) s).mem x
          = s.mem x) ∧
      (run (emittedBy (fun x =>
          x.PopLocalReferenceFrame env jni_env_reg saved_cookie_reg temp_reg) a) s).sp
        = s.sp) := by
  rw [run_Push env a _ _ _ s hek het, run_Pop env a _ _ _ s het]
  refine ⟨⟨?_, ?_, rfl⟩, ⟨?_, ?_, ?_, ?_, rfl⟩⟩
  · intro r hrk hrt
    simp [hrk, hrt]
  · intro x hx
    exact writeBytes_outside _ _ _ _ _ (by omega)
  · intro r hrt
    simp [hrt]
  · simp [het]
  · intro hkt
    simp [hkt]
  · intro x hxc hxs
    show writeBytes (writeBytes _ _ _ _) _ _ _ x = s.mem x
    rw [writeBytes_outside _ _ _ _ _ (by omega), writeBytes_outside _ _ _ _ _ (by omega)]

/-- Witness of C17 as amended, on the 64-bit sample image with three distinct registers: Pop
leaves the saved-cookie register as it was. -/
theorem Push_Pop_frame_witness :
    (run (emittedBy (fun x => x.PopLocalReferenceFrame sampleLayout ⟨0⟩ ⟨1⟩ ⟨2⟩)
        (construct PointerSize.k64 Backend.Riscv64JNIMacroAssembler ⟨0⟩)) sampleState).regs
      ⟨1⟩ = sampleState.regs ⟨1⟩ :=
  (Push_Pop_frame sampleLayout PointerSize.k64 _ ⟨0⟩ ⟨1⟩ ⟨2⟩ sampleState
    (by decide) (by decide)).2.2.2.1 (by decide)

/-- Counterexample to C17 as stated: with `jni_env_reg` distinct from both other registers but
`saved_cookie_reg` and `temp_reg` the same register, the code of Pop overwrites
`saved_cookie_reg` (here with the cookie 5, where it held 0). -/
theorem Pop_frame_counterexample :
    (⟨0⟩ : ManagedRegister) ≠ ⟨1⟩ ∧
    (run (emittedBy (fun x => x.PopLocalReferenceFrame sampleLayout ⟨0⟩ ⟨1⟩ ⟨1⟩)
        (construct PointerSize.k64 Backend.Riscv64JNIMacroAssembler ⟨0⟩)) sampleState).regs
      ⟨1⟩ = 5 ∧
    sampleState.regs ⟨1⟩ = 0 ∧
    (run (emittedBy (fun x => x.PopLocalReferenceFrame sampleLayout ⟨0⟩ ⟨1⟩ ⟨1⟩)
        (construct PointerSize.k64 Backend.Riscv64JNIMacroAssembler ⟨0⟩)) sampleState).regs
      ⟨1⟩ ≠ sampleState.regs ⟨1⟩ := by
  decide

end art
